import Mathlib

/-!
Guile-SSH: session and key functions.

A shallow embedding of `src/ssh/session-func.c` and `src/ssh/key-func.c`.

The C functions are glue between two foreign libraries, libguile and libssh.
Neither library is part of the repository, so:

* every libssh entry point (`ssh_connect`, `ssh_blocking_flush`,
  `ssh_is_server_known`, `ssh_get_pubkey_hash`, the `ssh_pki_*` functions and
  the status of `ssh_options_set`) is an arbitrary function passed as an
  argument, and the theorems quantify over it;
* the libguile conversions used by the code (`scm_is_string`, `scm_to_int`,
  `SCM_ASSERT`, ...) are modelled on a small datatype `SCM` of Scheme values;
* a raised Scheme exception is the `error` side of `Except GuileError _`.
-/

namespace GuileSSH

/-! ## Constants of libssh -/

/-- Status `SSH_OK` of libssh. -/
def SSH_OK : Int := 0
/-- Status `SSH_ERROR` of libssh. -/
def SSH_ERROR : Int := -1
/-- Status `SSH_AGAIN` of libssh. -/
def SSH_AGAIN : Int := -2
/-- Status `SSH_EOF` of libssh. -/
def SSH_EOF : Int := -127

/-- Value `SSH_SERVER_ERROR` of `enum ssh_server_known_e`. -/
def SSH_SERVER_ERROR : Int := -1
/-- Value `SSH_SERVER_NOT_KNOWN` of `enum ssh_server_known_e`. -/
def SSH_SERVER_NOT_KNOWN : Int := 0
/-- Value `SSH_SERVER_KNOWN_OK` of `enum ssh_server_known_e`. -/
def SSH_SERVER_KNOWN_OK : Int := 1
/-- Value `SSH_SERVER_KNOWN_CHANGED` of `enum ssh_server_known_e`. -/
def SSH_SERVER_KNOWN_CHANGED : Int := 2
/-- Value `SSH_SERVER_FOUND_OTHER` of `enum ssh_server_known_e`. -/
def SSH_SERVER_FOUND_OTHER : Int := 3
/-- Value `SSH_SERVER_FILE_NOT_FOUND` of `enum ssh_server_known_e`. -/
def SSH_SERVER_FILE_NOT_FOUND : Int := 4

/-! The members of `enum ssh_options_e` that the code names. -/

def SSH_OPTIONS_HOST : Int := 0
def SSH_OPTIONS_PORT : Int := 1
def SSH_OPTIONS_FD : Int := 3
def SSH_OPTIONS_USER : Int := 4
def SSH_OPTIONS_SSH_DIR : Int := 5
def SSH_OPTIONS_IDENTITY : Int := 6
def SSH_OPTIONS_KNOWNHOSTS : Int := 8
def SSH_OPTIONS_TIMEOUT : Int := 9
def SSH_OPTIONS_TIMEOUT_USEC : Int := 10
def SSH_OPTIONS_SSH1 : Int := 11
def SSH_OPTIONS_SSH2 : Int := 12
def SSH_OPTIONS_LOG_VERBOSITY : Int := 13
def SSH_OPTIONS_CIPHERS_C_S : Int := 15
def SSH_OPTIONS_CIPHERS_S_C : Int := 16
def SSH_OPTIONS_COMPRESSION_C_S : Int := 17
def SSH_OPTIONS_COMPRESSION_S_C : Int := 18
def SSH_OPTIONS_PROXYCOMMAND : Int := 19
def SSH_OPTIONS_BINDADDR : Int := 20
def SSH_OPTIONS_STRICTHOSTKEYCHECK : Int := 21
def SSH_OPTIONS_COMPRESSION : Int := 22
def SSH_OPTIONS_COMPRESSION_LEVEL : Int := 23

/-! ## Limits of the C integer types (`int` is 32 bits wide) -/

def INT_MIN : Int := -2147483648
def INT_MAX : Int := 2147483647
def UINT32_MAX : Int := 4294967295
def UINT64_MAX : Int := 18446744073709551615

/-! ## Native state -/

/-- One byte (`unsigned char`). -/
abbrev Byte := Fin 256

/-- The object that `ssh_options_set` receives through its `const void *`
argument, tagged with the C type that the caller stored there. -/
inductive CValue where
  | c_string (s : String)
  | c_uint64 (n : Int)
  | c_uint32 (n : Int)
  | c_int32 (n : Int)
  | c_socket (fd : Int)
  | c_const (v : Int)
deriving DecidableEq, Repr

/-- One call of the native setter `ssh_options_set`, as a call-counting stub
records it: the option id, the object passed, and the status returned. -/
structure options_set_call where
  type : Int
  value : CValue
  status : Int
deriving DecidableEq, Repr

/-- The native session behind a session smob, as far as the glue code can
observe it: the diagnostic that `ssh_get_error` returns and the calls of the
native setter made so far, newest first. -/
structure ssh_session where
  error : String
  calls : List options_set_call
deriving DecidableEq, Repr

/-- The native call `ssh_get_error`. -/
def ssh_get_error (s : ssh_session) : String := s.error

/-- Number of calls of the native setter made on a session so far. -/
def set_calls (s : ssh_session) : Nat := s.calls.length

/-- The value an option currently has: the object of the newest call of the
native setter for that option that returned `SSH_OK`. -/
def option_value (s : ssh_session) (type : Int) : Option CValue :=
  (s.calls.find? (fun c => c.type == type && c.status == SSH_OK)).map (fun c => c.value)

/-- The native setter `ssh_options_set` of libssh behind a call-counting
stub.  The status it reports is the arbitrary function `status`; every call
is recorded in the session. -/
def ssh_options_set (status : ssh_session → Int → CValue → Int)
    (s : ssh_session) (type : Int) (v : CValue) : Int × ssh_session :=
  let ret := status s type v
  (ret, { s with calls := { type := type, value := v, status := ret } :: s.calls })

/-! ## Keys -/

/-- Modelled from the spec: the discriminant of a key handle (`key-type.h` is
not among the sources); the spec gives it the two values Public and
Private. -/
inductive KEY_TYPE where
  | KEY_TYPE_PUBLIC
  | KEY_TYPE_PRIVATE
deriving DecidableEq, Repr

/-- Modelled from the spec: `struct key_data` of `key-type.h`, with the three
fields the code assigns.  `ssh_key` is the native key pointer, `none` while
nothing was stored in it; `is_to_be_freed` is the ownership flag. -/
structure key_data where
  key_type : KEY_TYPE
  ssh_key : Option Nat
  is_to_be_freed : Nat
deriving DecidableEq, Repr

/-- Modelled from the spec: the predicate `_private_key_p` of `key-type.c`
(kind = Private). -/
def _private_key_p (key : key_data) : Bool :=
  key.key_type == KEY_TYPE.KEY_TYPE_PRIVATE

/-! ## Scheme values and exceptions -/

/-- The Scheme values that the code can tell apart. -/
inductive SCM where
  | sym (name : String)
  | str (s : String)
  | int (n : Int)
  | inexact (q : ℚ)
  | bool (b : Bool)
  | port (fileno : Option Int)
  | bytevector (bytes : List Byte)
  | session (s : ssh_session)
  | key (k : key_data)
  | undefined
deriving DecidableEq

/-- The exceptions that the code can raise: `wrong-type-arg` (from
`SCM_ASSERT` and from libguile conversions), `out-of-range` and `misc-error`
(from libguile conversions) and `guile-ssh-error`. -/
inductive GuileError where
  | wrong_type_arg (subr : Option String) (pos : Nat) (bad : SCM)
  | out_of_range (subr : Option String) (bad : SCM)
  | misc_error (subr : Option String) (msg : String) (args : SCM)
  | guile_ssh_error (proc : String) (msg : String) (args : SCM)
deriving DecidableEq

/-- Modelled from the spec: `guile_ssh_error1` of `error.c` raises a
`guile-ssh-error` that carries the procedure name, the message and the
offending object. -/
def guile_ssh_error1 (proc msg : String) (args : SCM) : GuileError :=
  GuileError.guile_ssh_error proc msg args

def SCM_ARG1 : Nat := 1
def SCM_ARG2 : Nat := 2
def SCM_ARG3 : Nat := 3

def SCM_BOOL_F : SCM := SCM.bool false
def SCM_BOOL_T : SCM := SCM.bool true
def SCM_UNDEFINED : SCM := SCM.undefined

def scm_from_locale_symbol (name : String) : SCM := SCM.sym name

def scm_is_symbol : SCM → Bool
  | SCM.sym _ => true
  | _ => false

def scm_is_string : SCM → Bool
  | SCM.str _ => true
  | _ => false

/-- Behaviour of `scm_is_integer`: true of exact integers and of inexact
reals with an integral value. -/
def scm_is_integer : SCM → Bool
  | SCM.int _ => true
  | SCM.inexact q => q.den == 1
  | _ => false

/-- Behaviour of `scm_is_unsigned_integer`: true of exact integers within
the bounds only. -/
def scm_is_unsigned_integer (v : SCM) (lo hi : Int) : Bool :=
  match v with
  | SCM.int n => decide (lo ≤ n) && decide (n ≤ hi)
  | _ => false

def scm_is_bool : SCM → Bool
  | SCM.bool _ => true
  | _ => false

/-- Behaviour of `scm_to_bool`: everything but `#f` is true. -/
def scm_to_bool (v : SCM) : Int :=
  if v = SCM_BOOL_F then 0 else 1

/-- Behaviour of `scm_to_int`: an exact integer that fits `int`, else
`out-of-range` for an exact integer and `wrong-type-arg` for the rest. -/
def scm_to_int (v : SCM) : Except GuileError Int :=
  match v with
  | SCM.int n =>
    if INT_MIN ≤ n ∧ n ≤ INT_MAX then Except.ok n
    else Except.error (GuileError.out_of_range none v)
  | _ => Except.error (GuileError.wrong_type_arg none 0 v)

/-- Whether a string contains the character NUL. -/
def has_nul (s : String) : Bool := s.toList.contains (Char.ofNat 0)

/-- Behaviour of `scm_to_locale_string`: the C string of a Scheme string; a
string that contains the character NUL has no C string and is a `misc-error`;
a value that is not a string is a `wrong-type-arg`. -/
def scm_to_locale_string : SCM → Except GuileError String
  | SCM.str s =>
    if has_nul s then
      Except.error (GuileError.misc_error none "string contains #\\nul character: ~S"
        (SCM.str s))
    else Except.ok s
  | v => Except.error (GuileError.wrong_type_arg none 0 v)

/-- Behaviour of `scm_port_p`, which returns a Scheme boolean. -/
def scm_port_p : SCM → SCM
  | SCM.port _ => SCM_BOOL_T
  | _ => SCM_BOOL_F

/-- Behaviour of `scm_fileno`: the descriptor of an open file port,
`wrong-type-arg` for anything else. -/
def scm_fileno (v : SCM) : Except GuileError SCM :=
  match v with
  | SCM.port (some fd) => Except.ok (SCM.int fd)
  | _ => Except.error (GuileError.wrong_type_arg (some "fileno") 1 v)

/-- The test that C applies to an `SCM` used as a condition: an `SCM` is a
tagged machine word and no Scheme object, `#f` included, is the zero word. -/
def scm_word_nonzero (_ : SCM) : Bool := true

/-- The macro `SCM_ASSERT (cond, arg, pos, subr)`. -/
def SCM_ASSERT (cond : Bool) (arg : SCM) (pos : Nat) (subr : String) :
    Except GuileError Unit :=
  if cond then Except.ok () else Except.error (GuileError.wrong_type_arg (some subr) pos arg)

/-! ## session-func.c : connect!, authenticate-server, blocking-flush! -/

/-- The procedure `blocking-flush!`. -/
def guile_ssh_blocking_flush (ssh_blocking_flush : ssh_session → Int → Int × ssh_session)
    (session : ssh_session) (timeout : SCM) : Except GuileError SCM × ssh_session :=
  match SCM_ASSERT (scm_is_integer timeout) timeout SCM_ARG2 "blocking-flush!" with
  | Except.error e => (Except.error e, session)
  | Except.ok () =>
    match scm_to_int timeout with
    | Except.error e => (Except.error e, session)
    | Except.ok c_timeout =>
      let r := ssh_blocking_flush session c_timeout
      let res := r.1
      if res = SSH_OK then (Except.ok (scm_from_locale_symbol "ok"), r.2)
      else if res = SSH_AGAIN then (Except.ok (scm_from_locale_symbol "again"), r.2)
      else (Except.ok (scm_from_locale_symbol "error"), r.2)

/-- The procedure `connect!`. -/
def guile_ssh_connect_x (ssh_connect : ssh_session → Int × ssh_session)
    (session : ssh_session) : Except GuileError SCM × ssh_session :=
  let r := ssh_connect session
  let res := r.1
  if res = SSH_OK then (Except.ok (scm_from_locale_symbol "ok"), r.2)
  else if res = SSH_AGAIN then (Except.ok (scm_from_locale_symbol "again"), r.2)
  else (Except.error (guile_ssh_error1 "connect!" (ssh_get_error r.2) (SCM.session r.2)), r.2)

/-- The procedure `get-error`. -/
def guile_ssh_get_error (session : ssh_session) : SCM :=
  SCM.str (ssh_get_error session)

/-- The procedure `authenticate-server`. -/
def guile_ssh_authenticate_server (ssh_is_server_known : ssh_session → Int × ssh_session)
    (session : ssh_session) : Except GuileError SCM × ssh_session :=
  let r := ssh_is_server_known session
  let res := r.1
  if res = SSH_SERVER_KNOWN_OK then (Except.ok (scm_from_locale_symbol "ok"), r.2)
  else if res = SSH_SERVER_KNOWN_CHANGED then
    (Except.ok (scm_from_locale_symbol "known-changed"), r.2)
  else if res = SSH_SERVER_FOUND_OTHER then
    (Except.ok (scm_from_locale_symbol "found-other"), r.2)
  else if res = SSH_SERVER_NOT_KNOWN then
    (Except.ok (scm_from_locale_symbol "not-known"), r.2)
  else if res = SSH_SERVER_FILE_NOT_FOUND then
    (Except.ok (scm_from_locale_symbol "file-not-found"), r.2)
  else
    (Except.error (guile_ssh_error1 "authenticate-server" (ssh_get_error r.2) (SCM.session r.2)),
      r.2)

/-! ## session-func.c : session-set! -/

/-- Modelled from the spec: the C struct `symbol_mapping` of `common.h`
(not among the sources), an option descriptor: a symbol name and the native
constant it stands for, which the code reads as `value`. -/
structure symbol_mapping where
  symbol : String
  value : Int
deriving DecidableEq, Repr

/-- The table `session_options` (its sentinel entry ends the C array and is
not an element of the list). -/
def session_options : List symbol_mapping :=
  [ { symbol := "host",               value := SSH_OPTIONS_HOST               },
    { symbol := "port",               value := SSH_OPTIONS_PORT               },
    { symbol := "fd",                 value := SSH_OPTIONS_FD                 },
    { symbol := "bindaddr",           value := SSH_OPTIONS_BINDADDR           },
    { symbol := "user",               value := SSH_OPTIONS_USER               },
    { symbol := "ssh-dir",            value := SSH_OPTIONS_SSH_DIR            },
    { symbol := "identity",           value := SSH_OPTIONS_IDENTITY           },
    { symbol := "knownhosts",         value := SSH_OPTIONS_KNOWNHOSTS         },
    { symbol := "timeout",            value := SSH_OPTIONS_TIMEOUT            },
    { symbol := "timeout-usec",       value := SSH_OPTIONS_TIMEOUT_USEC       },
    { symbol := "ssh1",               value := SSH_OPTIONS_SSH1               },
    { symbol := "ssh2",               value := SSH_OPTIONS_SSH2               },
    { symbol := "log-verbosity",      value := SSH_OPTIONS_LOG_VERBOSITY      },
    { symbol := "ciphers-c-s",        value := SSH_OPTIONS_CIPHERS_C_S        },
    { symbol := "ciphers-s-c",        value := SSH_OPTIONS_CIPHERS_S_C        },
    { symbol := "compression-c-s",    value := SSH_OPTIONS_COMPRESSION_C_S    },
    { symbol := "compression-s-c",    value := SSH_OPTIONS_COMPRESSION_S_C    },
    { symbol := "proxycommand",       value := SSH_OPTIONS_PROXYCOMMAND       },
    { symbol := "stricthostkeycheck", value := SSH_OPTIONS_STRICTHOSTKEYCHECK },
    { symbol := "compression",        value := SSH_OPTIONS_COMPRESSION        },
    { symbol := "compression-level",  value := SSH_OPTIONS_COMPRESSION_LEVEL  } ]

/-- Modelled from the spec: `_scm_to_ssh_const` of `common.c`, the lookup of
a symbol in a mapping table: the first entry with that name, or NULL (here
`none`) when the table has none.  A value that is not a symbol has no name
to look up and is a `wrong-type-arg`. -/
def _scm_to_ssh_const (types : List symbol_mapping) (value : SCM) :
    Except GuileError (Option symbol_mapping) :=
  match value with
  | SCM.sym name => Except.ok (types.find? (fun t => t.symbol == name))
  | v => Except.error (GuileError.wrong_type_arg (some "symbol->string") 1 v)

/-- Behaviour of `scm_to_uint64`. -/
def scm_to_uint64 (v : SCM) : Except GuileError Int :=
  match v with
  | SCM.int n =>
    if 0 ≤ n ∧ n ≤ UINT64_MAX then Except.ok n
    else Except.error (GuileError.out_of_range none v)
  | _ => Except.error (GuileError.wrong_type_arg none 0 v)

/-- Behaviour of `scm_to_uint32`. -/
def scm_to_uint32 (v : SCM) : Except GuileError Int :=
  match v with
  | SCM.int n =>
    if 0 ≤ n ∧ n ≤ UINT32_MAX then Except.ok n
    else Except.error (GuileError.out_of_range none v)
  | _ => Except.error (GuileError.wrong_type_arg none 0 v)

/-- Result of a setter: the status of the native call, or the exception
raised before it, and the session afterwards. -/
abbrev SetResult := Except GuileError Int × ssh_session

/-- Convert VALUE to a string and pass it to `ssh_options_set`. -/
def set_string_opt (status : ssh_session → Int → CValue → Int)
    (session : ssh_session) (type : Int) (value : SCM) : SetResult :=
  match SCM_ASSERT (scm_is_string value) value SCM_ARG3 "session-set!" with
  | Except.error e => (Except.error e, session)
  | Except.ok () =>
    match scm_to_locale_string value with
    | Except.error e => (Except.error e, session)
    | Except.ok str =>
      let r := ssh_options_set status session type (CValue.c_string str)
      (Except.ok r.1, r.2)

/-- Convert VALUE to uint64 and pass it to `ssh_options_set`. -/
def set_uint64_opt (status : ssh_session → Int → CValue → Int)
    (session : ssh_session) (type : Int) (value : SCM) : SetResult :=
  match SCM_ASSERT (scm_is_unsigned_integer value 0 UINT64_MAX) value SCM_ARG3 "session-set!" with
  | Except.error e => (Except.error e, session)
  | Except.ok () =>
    match scm_to_uint64 value with
    | Except.error e => (Except.error e, session)
    | Except.ok c_value =>
      let r := ssh_options_set status session type (CValue.c_uint64 c_value)
      (Except.ok r.1, r.2)

/-- Convert VALUE to uint32 and pass it to `ssh_options_set`. -/
def set_uint32_opt (status : ssh_session → Int → CValue → Int)
    (session : ssh_session) (type : Int) (value : SCM) : SetResult :=
  match SCM_ASSERT (scm_is_unsigned_integer value 0 UINT32_MAX) value SCM_ARG3 "session-set!" with
  | Except.error e => (Except.error e, session)
  | Except.ok () =>
    match scm_to_uint32 value with
    | Except.error e => (Except.error e, session)
    | Except.ok c_value =>
      let r := ssh_options_set status session type (CValue.c_uint32 c_value)
      (Except.ok r.1, r.2)

/-- Convert VALUE to int32 and pass it to `ssh_options_set`. -/
def set_int32_opt (status : ssh_session → Int → CValue → Int)
    (session : ssh_session) (type : Int) (value : SCM) : SetResult :=
  match SCM_ASSERT (scm_is_integer value) value SCM_ARG3 "session-set!" with
  | Except.error e => (Except.error e, session)
  | Except.ok () =>
    match scm_to_int value with
    | Except.error e => (Except.error e, session)
    | Except.ok c_value =>
      let r := ssh_options_set status session type (CValue.c_int32 c_value)
      (Except.ok r.1, r.2)

/-- Convert VALUE to an integer that represents a boolean value and pass it
to `ssh_options_set`. -/
def set_bool_opt (status : ssh_session → Int → CValue → Int)
    (session : ssh_session) (type : Int) (value : SCM) : SetResult :=
  match SCM_ASSERT (scm_is_bool value) value SCM_ARG3 "session-set!" with
  | Except.error e => (Except.error e, session)
  | Except.ok () =>
    let r := ssh_options_set status session type (CValue.c_int32 (scm_to_bool value))
    (Except.ok r.1, r.2)

/-- Convert VALUE to a socket file descriptor and pass it to
`ssh_options_set`.  The condition handed to `SCM_ASSERT` is the `SCM` that
`scm_port_p` returns, used as a C truth value; the descriptor then comes from
`scm_fileno`, which does its own check. -/
def set_port_opt (status : ssh_session → Int → CValue → Int)
    (session : ssh_session) (type : Int) (value : SCM) : SetResult :=
  match SCM_ASSERT (scm_word_nonzero (scm_port_p value)) value SCM_ARG3 "session-set!" with
  | Except.error e => (Except.error e, session)
  | Except.ok () =>
    match scm_fileno value with
    | Except.error e => (Except.error e, session)
    | Except.ok fileno =>
      match scm_to_int fileno with
      | Except.error e => (Except.error e, session)
      | Except.ok sfd =>
        let r := ssh_options_set status session type (CValue.c_socket sfd)
        (Except.ok r.1, r.2)

/-- Convert a Scheme symbol to a libssh constant and set the option to the
value of the constant. -/
def set_sym_opt (status : ssh_session → Int → CValue → Int)
    (session : ssh_session) (type : Int) (sm : List symbol_mapping) (value : SCM) : SetResult :=
  match _scm_to_ssh_const sm value with
  | Except.error e => (Except.error e, session)
  | Except.ok none => (Except.error (guile_ssh_error1 "session-set!" "Wrong value" value), session)
  | Except.ok (some opt) =>
    let r := ssh_options_set status session type (CValue.c_const opt.value)
    (Except.ok r.1, r.2)

/-- The C function `set_option`: set an SSH session option.  The table
`log_verbosity` is defined outside these sources and is an argument here. -/
def set_option_c (status : ssh_session → Int → CValue → Int)
    (log_verbosity : List symbol_mapping)
    (session : ssh_session) (type : Int) (value : SCM) : SetResult :=
  if type = SSH_OPTIONS_PORT then
    set_uint32_opt status session type value
  else if type = SSH_OPTIONS_HOST ∨ type = SSH_OPTIONS_BINDADDR ∨ type = SSH_OPTIONS_USER
      ∨ type = SSH_OPTIONS_COMPRESSION ∨ type = SSH_OPTIONS_SSH_DIR
      ∨ type = SSH_OPTIONS_KNOWNHOSTS ∨ type = SSH_OPTIONS_IDENTITY
      ∨ type = SSH_OPTIONS_CIPHERS_C_S ∨ type = SSH_OPTIONS_CIPHERS_S_C
      ∨ type = SSH_OPTIONS_COMPRESSION_C_S ∨ type = SSH_OPTIONS_COMPRESSION_S_C
      ∨ type = SSH_OPTIONS_PROXYCOMMAND then
    set_string_opt status session type value
  else if type = SSH_OPTIONS_LOG_VERBOSITY then
    set_sym_opt status session type log_verbosity value
  else if type = SSH_OPTIONS_COMPRESSION_LEVEL then
    set_int32_opt status session type value
  else if type = SSH_OPTIONS_TIMEOUT ∨ type = SSH_OPTIONS_TIMEOUT_USEC then
    set_uint64_opt status session type value
  else if type = SSH_OPTIONS_SSH1 ∨ type = SSH_OPTIONS_SSH2
      ∨ type = SSH_OPTIONS_STRICTHOSTKEYCHECK then
    set_bool_opt status session type value
  else if type = SSH_OPTIONS_FD then
    set_port_opt status session type value
  else
    (Except.error (guile_ssh_error1 "session-set!" "Operation is not supported yet: %a~%"
      (SCM.int type)), session)

/-- The procedure `session-set!`. -/
def guile_ssh_session_set (status : ssh_session → Int → CValue → Int)
    (log_verbosity : List symbol_mapping)
    (session : ssh_session) (option value : SCM) : Except GuileError SCM × ssh_session :=
  match SCM_ASSERT (scm_is_symbol option) option SCM_ARG2 "session-set!" with
  | Except.error e => (Except.error e, session)
  | Except.ok () =>
    match _scm_to_ssh_const session_options option with
    | Except.error e => (Except.error e, session)
    | Except.ok none =>
      (Except.error (guile_ssh_error1 "session-set!" "No such option" option), session)
    | Except.ok (some opt) =>
      let r := set_option_c status log_verbosity session opt.value value
      match r.1 with
      | Except.error e => (Except.error e, r.2)
      | Except.ok res =>
        if res ≠ SSH_OK then
          (Except.error (guile_ssh_error1 "session-set!" "Unable to set the option" option), r.2)
        else (Except.ok SCM_UNDEFINED, r.2)

/-! ## session-func.c : get-public-key-hash -/

/-- Behaviour of `scm_c_make_bytevector`: a bytevector of the given length
whose contents are whatever the arbitrary function `junk` says. -/
def scm_c_make_bytevector (junk : Nat → Byte) (len : Nat) : List Byte :=
  (List.range len).map junk

/-- Behaviour of `scm_c_bytevector_set_x`. -/
def scm_c_bytevector_set_x (bv : List Byte) (idx : Nat) (v : Byte) : List Byte :=
  bv.set idx v

/-- The loop `for (idx = 0; idx < hash_len; ++idx)` of `get-public-key-hash`,
entered at `idx`. -/
def hash_copy_loop (hash : List Byte) (hash_len : Nat) (idx : Nat) (ret : List Byte) :
    List Byte :=
  if idx < hash_len then
    hash_copy_loop hash hash_len (idx + 1) (scm_c_bytevector_set_x ret idx (hash.getD idx 0))
  else ret
termination_by hash_len - idx

/-- The procedure `get-public-key-hash`.  The native `ssh_get_pubkey_hash`
reports a length and the bytes of the buffer it allocated. -/
def guile_ssh_get_public_key_hash (ssh_get_pubkey_hash : ssh_session → Int × List Byte)
    (junk : Nat → Byte) (session : ssh_session) : Except GuileError SCM :=
  let r := ssh_get_pubkey_hash session
  let hash := r.2
  let hash_len := r.1
  if hash_len ≥ 0 then
    let ret := scm_c_make_bytevector junk hash_len.toNat
    Except.ok (SCM.bytevector (hash_copy_loop hash hash_len.toNat 0 ret))
  else
    Except.ok SCM_BOOL_F

/-! ## key-func.c -/

/-- The procedure `private-key-from-file`.  `mem` is the block that
`scm_gc_malloc` returns, with unspecified contents; the native import reports
a status and, when it stored one, the key. -/
def guile_ssh_private_key_from_file
    (ssh_pki_import_privkey_file : String → Int × Option Nat)
    (mem : key_data) (_session : ssh_session) (filename : SCM) : Except GuileError SCM :=
  match SCM_ASSERT (scm_is_string filename) filename SCM_ARG2 "private-key-from-file" with
  | Except.error e => Except.error e
  | Except.ok () =>
    match scm_to_locale_string filename with
    | Except.error e => Except.error e
    | Except.ok c_filename =>
      let r := ssh_pki_import_privkey_file c_filename
      let res := r.1
      let kd : key_data :=
        { mem with ssh_key := match r.2 with
                              | some k => some k
                              | none => mem.ssh_key }
      let kd : key_data := { kd with is_to_be_freed := 0 }
      if res = SSH_EOF then
        Except.error (guile_ssh_error1 "private-key-from-file"
          "The file does not exist or permission denied" filename)
      else if res = SSH_ERROR then
        Except.error (guile_ssh_error1 "private-key-from-file"
          "Unable to import a key from the file" filename)
      else Except.ok (SCM.key kd)

/-- The procedure `private-key->public-key`.  The second component of the
result is the number of calls of the native
`ssh_pki_export_privkey_to_pubkey` that were made. -/
def guile_ssh_public_key_from_private_key
    (ssh_pki_export_privkey_to_pubkey : Option Nat → Int × Option Nat)
    (mem : key_data) (key : key_data) : Except GuileError SCM × Nat :=
  match SCM_ASSERT (_private_key_p key) (SCM.key key) SCM_ARG1 "private-key->public-key" with
  | Except.error e => (Except.error e, 0)
  | Except.ok () =>
    let public_key_data : key_data := { mem with key_type := KEY_TYPE.KEY_TYPE_PUBLIC }
    let r := ssh_pki_export_privkey_to_pubkey key.ssh_key
    let res := r.1
    let public_key_data : key_data :=
      { public_key_data with ssh_key := match r.2 with
                                        | some k => some k
                                        | none => public_key_data.ssh_key }
    let public_key_data : key_data := { public_key_data with is_to_be_freed := 1 }
    if res ≠ SSH_OK then (Except.ok SCM_BOOL_F, 1)
    else (Except.ok (SCM.key public_key_data), 1)

/-- The procedure `public-key-from-file`. -/
def guile_ssh_public_key_from_file
    (ssh_pki_import_pubkey_file : String → Int × Option Nat)
    (mem : key_data) (filename : SCM) : Except GuileError SCM :=
  match SCM_ASSERT (scm_is_string filename) filename SCM_ARG1 "public-key-from-file" with
  | Except.error e => Except.error e
  | Except.ok () =>
    match scm_to_locale_string filename with
    | Except.error e => Except.error e
    | Except.ok c_filename =>
      let r := ssh_pki_import_pubkey_file c_filename
      let res := r.1
      let public_key_data : key_data :=
        { mem with ssh_key := match r.2 with
                              | some k => some k
                              | none => mem.ssh_key }
      if res = SSH_EOF then
        Except.error (guile_ssh_error1 "public-key-from-file"
          "The file does not exist or permission denied" filename)
      else if res = SSH_ERROR then
        Except.error (guile_ssh_error1 "public-key-from-file"
          "Unable to import a key from the file" filename)
      else
        let public_key_data : key_data := { public_key_data with is_to_be_freed := 0 }
        Except.ok (SCM.key public_key_data)

/-! ## The value kinds of the specification -/

/-- The value kinds that the specification gives to an option descriptor. -/
inductive ValueKind where
  | String
  | UInt32
  | UInt64
  | Int32
  | Bool
  | PortFD
  | SymbolicConstant
deriving DecidableEq, Repr

/-- The kind the specification assigns to each option, by mnemonic: string
for host, bindaddr, user, compression, ssh-dir, knownhosts, identity,
ciphers-*, compression-*-* and proxycommand; unsigned 32-bit integer for
port; unsigned 64-bit integer for timeout and timeout-usec; integer for
compression-level; boolean for ssh1, ssh2 and stricthostkeycheck; port for
fd; log-verbosity symbol for log-verbosity. -/
def spec_value_kind (symbol : String) : Option ValueKind :=
  if symbol ∈ ["host", "bindaddr", "user", "compression", "ssh-dir", "knownhosts",
      "identity", "ciphers-c-s", "ciphers-s-c", "compression-c-s", "compression-s-c",
      "proxycommand"] then some ValueKind.String
  else if symbol = "port" then some ValueKind.UInt32
  else if symbol ∈ ["timeout", "timeout-usec"] then some ValueKind.UInt64
  else if symbol = "compression-level" then some ValueKind.Int32
  else if symbol ∈ ["ssh1", "ssh2", "stricthostkeycheck"] then some ValueKind.Bool
  else if symbol = "fd" then some ValueKind.PortFD
  else if symbol = "log-verbosity" then some ValueKind.SymbolicConstant
  else none

/-- Whether a Scheme value is of a kind, in the words of the specification:
a string; an integer within [0, 2^32-1]; an integer within [0, 2^64-1]; an
integer; a boolean; a port; a symbol known to the log-verbosity table. -/
def spec_has_kind (log_verbosity : List symbol_mapping) : ValueKind → SCM → Bool
  | ValueKind.String, SCM.str _ => true
  | ValueKind.UInt32, SCM.int n => decide (0 ≤ n ∧ n ≤ 2 ^ 32 - 1)
  | ValueKind.UInt64, SCM.int n => decide (0 ≤ n ∧ n ≤ 2 ^ 64 - 1)
  | ValueKind.Int32, SCM.int _ => true
  | ValueKind.Bool, SCM.bool _ => true
  | ValueKind.PortFD, SCM.port _ => true
  | ValueKind.SymbolicConstant, SCM.sym name => log_verbosity.any (fun t => t.symbol == name)
  | _, _ => false

/-- Whether a value passes the validation that the specification asks of
the option codec: it is of the kind, a string can be converted to a
null-terminated byte sequence (it holds no NUL), an Int32 is within the range
of the destination, and a port is open with an OS file descriptor (a C
int). -/
def spec_passes_validation (log_verbosity : List symbol_mapping) (k : ValueKind) (v : SCM) :
    Bool :=
  spec_has_kind log_verbosity k v &&
  match k, v with
  | ValueKind.String, SCM.str s => !has_nul s
  | ValueKind.Int32, SCM.int n => decide (-(2 ^ 31) ≤ n ∧ n ≤ 2 ^ 31 - 1)
  | ValueKind.PortFD, SCM.port (some fd) => decide (-(2 ^ 31) ≤ fd ∧ fd ≤ 2 ^ 31 - 1)
  | ValueKind.PortFD, _ => false
  | _, _ => true

/-- The object that the specification has the codec hand to the native
setter for a value of a kind: the byte sequence of a string, the integer of a
UInt32, UInt64 or Int32, the 0/1 form of a boolean, the descriptor number of
a port, the constant of a known mnemonic. -/
def spec_native_value (log_verbosity : List symbol_mapping) : ValueKind → SCM → Option CValue
  | ValueKind.String, SCM.str s => some (CValue.c_string s)
  | ValueKind.UInt32, SCM.int n => some (CValue.c_uint32 n)
  | ValueKind.UInt64, SCM.int n => some (CValue.c_uint64 n)
  | ValueKind.Int32, SCM.int n => some (CValue.c_int32 n)
  | ValueKind.Bool, SCM.bool b => some (CValue.c_int32 (if b then 1 else 0))
  | ValueKind.PortFD, SCM.port (some fd) => some (CValue.c_socket fd)
  | ValueKind.SymbolicConstant, SCM.sym name =>
    (log_verbosity.find? (fun t => t.symbol == name)).map (fun t => CValue.c_const t.value)
  | _, _ => none

/-- Whether an exception is the type mismatch of the specification, a
`wrong-type-arg`. -/
def is_type_mismatch : GuileError → Bool
  | GuileError.wrong_type_arg _ _ _ => true
  | _ => false

/-- Whether an exception is the range error of the specification, an
`out-of-range`. -/
def is_range_error : GuileError → Bool
  | GuileError.out_of_range _ _ => true
  | _ => false

/-- Whether a result is a raised exception satisfying `p`. -/
def raises (p : GuileError → Bool) : Except GuileError SCM → Bool
  | Except.error e => p e
  | Except.ok _ => false

/-- Whether a result is a returned key handle. -/
def returns_key : Except GuileError SCM → Bool
  | Except.ok (SCM.key _) => true
  | _ => false

/-- The setter that handles a value kind. -/
def setter_of_kind (status : ssh_session → Int → CValue → Int)
    (log_verbosity : List symbol_mapping) :
    ValueKind → ssh_session → Int → SCM → SetResult
  | ValueKind.String => set_string_opt status
  | ValueKind.UInt32 => set_uint32_opt status
  | ValueKind.UInt64 => set_uint64_opt status
  | ValueKind.Int32 => set_int32_opt status
  | ValueKind.Bool => set_bool_opt status
  | ValueKind.PortFD => set_port_opt status
  | ValueKind.SymbolicConstant =>
    fun session type value => set_sym_opt status session type log_verbosity value

/-- The diagnostic string that the outcome of a procedure itself carries:
the message of a raised guile-ssh error.  A returned symbol carries none. -/
def carried_diagnostic : Except GuileError SCM → Option String
  | Except.error (GuileError.guile_ssh_error _ msg _) => some msg
  | _ => none

/-- What a setter may do: raise before the native call and leave the session
as it was, or make one native call and return its status. -/
def setter_outcome (status : ssh_session → Int → CValue → Int)
    (session : ssh_session) (type : Int) (r : SetResult) : Prop :=
  (r.2 = session ∧ ∃ e, r.1 = Except.error e) ∨
  (∃ cv, r = (Except.ok (status session type cv),
      { session with calls :=
          { type := type, value := cv, status := status session type cv } :: session.calls }))

/-! ## Concrete inputs used to exercise the definitions -/

/-- A fresh session: no diagnostic, no option set. -/
def fresh_session : ssh_session := { error := "", calls := [] }

/-- The table `log_verbosity` as the library defines it for libssh. -/
def log_verbosity_table : List symbol_mapping :=
  [ { symbol := "nolog", value := 0 }, { symbol := "rare", value := 1 },
    { symbol := "protocol", value := 2 }, { symbol := "packet", value := 3 },
    { symbol := "functions", value := 4 } ]

/-- A block of fresh memory for a key. -/
def fresh_key_mem : key_data :=
  { key_type := KEY_TYPE.KEY_TYPE_PRIVATE, ssh_key := none, is_to_be_freed := 7 }

/-- A private key handle. -/
def some_private_key : key_data :=
  { key_type := KEY_TYPE.KEY_TYPE_PRIVATE, ssh_key := some 1, is_to_be_freed := 0 }

/-- A public key handle. -/
def some_public_key : key_data :=
  { key_type := KEY_TYPE.KEY_TYPE_PUBLIC, ssh_key := some 2, is_to_be_freed := 0 }

/-- A native `ssh_connect` that fails with a diagnostic. -/
def refusing_connect (s : ssh_session) : Int × ssh_session :=
  (SSH_ERROR, { s with error := "Connection refused" })

/-- A native `ssh_is_server_known` that reports a status no case names. -/
def odd_server_known (s : ssh_session) : Int × ssh_session :=
  (5, { s with error := "unexpected state" })

/-- A native `ssh_blocking_flush` that fails and sets no diagnostic. -/
def failing_flush (s : ssh_session) (_timeout : Int) : Int × ssh_session :=
  (SSH_ERROR, s)

/-- A native setter that accepts every value. -/
def accepting_setter (_ : ssh_session) (_ : Int) (_ : CValue) : Int := SSH_OK

/-- A native setter that refuses every value. -/
def rejecting_setter (_ : ssh_session) (_ : Int) (_ : CValue) : Int := SSH_ERROR

/-- A native `ssh_get_pubkey_hash` that reports three bytes. -/
def short_hash (_ : ssh_session) : Int × List Byte := (3, [0xde, 0xad, 0x42])

/-- A native key import that finds no file. -/
def import_eof (_ : String) : Int × Option Nat := (SSH_EOF, none)

/-- A native key import that cannot parse the file. -/
def import_error (_ : String) : Int × Option Nat := (SSH_ERROR, none)

/-- A native key import that succeeds. -/
def import_ok (_ : String) : Int × Option Nat := (SSH_OK, some 11)

/-- A native key export that fails. -/
def export_error (_ : Option Nat) : Int × Option Nat := (SSH_ERROR, none)

/-- A native key export that succeeds. -/
def export_ok (_ : Option Nat) : Int × Option Nat := (SSH_OK, some 12)

/-! ## connect!, authenticate-server, blocking-flush! -/

/-- C1: `connect!` returns the symbol ok exactly when `ssh_connect` reports
`SSH_OK`, the symbol again exactly when it reports `SSH_AGAIN`, and for every
other status (`SSH_ERROR` included) it raises a guile-ssh error whose message
is the diagnostic `ssh_get_error` of the session, returning no symbol. -/
theorem connect_x_result (ssh_connect : ssh_session → Int × ssh_session)
    (session : ssh_session) :
    ((guile_ssh_connect_x ssh_connect session).1 = Except.ok (SCM.sym "ok")
        ↔ (ssh_connect session).1 = SSH_OK) ∧
    ((guile_ssh_connect_x ssh_connect session).1 = Except.ok (SCM.sym "again")
        ↔ (ssh_connect session).1 = SSH_AGAIN) ∧
    ((ssh_connect session).1 ≠ SSH_OK → (ssh_connect session).1 ≠ SSH_AGAIN →
      (guile_ssh_connect_x ssh_connect session).1 =
        Except.error (GuileError.guile_ssh_error "connect!"
          (ssh_get_error (ssh_connect session).2) (SCM.session (ssh_connect session).2))) := by
  unfold guile_ssh_connect_x
  by_cases h1 : (ssh_connect session).1 = SSH_OK
  · simp [h1, scm_from_locale_symbol]
    simp [SSH_OK, SSH_AGAIN]
  · by_cases h2 : (ssh_connect session).1 = SSH_AGAIN
    · simp [h1, h2, scm_from_locale_symbol]
      simp [SSH_OK, SSH_AGAIN]
    · simp [h1, h2, guile_ssh_error1]

/-- Witness for C1: a refused connection raises with the native diagnostic. -/
theorem connect_x_result_witness :
    (guile_ssh_connect_x refusing_connect fresh_session).1 =
      Except.error (GuileError.guile_ssh_error "connect!" "Connection refused"
        (SCM.session { error := "Connection refused", calls := [] })) :=
  (connect_x_result refusing_connect fresh_session).2.2 (by decide) (by decide)

/-- C2: `authenticate-server` maps `SSH_SERVER_KNOWN_OK` to ok,
`SSH_SERVER_KNOWN_CHANGED` to known-changed, `SSH_SERVER_FOUND_OTHER` to
found-other, `SSH_SERVER_NOT_KNOWN` to not-known, `SSH_SERVER_FILE_NOT_FOUND`
to file-not-found, each exactly for that status; for `SSH_SERVER_ERROR` and
every status outside the five it raises a guile-ssh error carrying the native
diagnostic; so every value it returns is one of the five symbols, and it
never returns again or error. -/
theorem authenticate_server_result (ssh_is_server_known : ssh_session → Int × ssh_session)
    (session : ssh_session) :
    ((guile_ssh_authenticate_server ssh_is_server_known session).1 = Except.ok (SCM.sym "ok")
        ↔ (ssh_is_server_known session).1 = SSH_SERVER_KNOWN_OK) ∧
    ((guile_ssh_authenticate_server ssh_is_server_known session).1
        = Except.ok (SCM.sym "known-changed")
        ↔ (ssh_is_server_known session).1 = SSH_SERVER_KNOWN_CHANGED) ∧
    ((guile_ssh_authenticate_server ssh_is_server_known session).1
        = Except.ok (SCM.sym "found-other")
        ↔ (ssh_is_server_known session).1 = SSH_SERVER_FOUND_OTHER) ∧
    ((guile_ssh_authenticate_server ssh_is_server_known session).1
        = Except.ok (SCM.sym "not-known")
        ↔ (ssh_is_server_known session).1 = SSH_SERVER_NOT_KNOWN) ∧
    ((guile_ssh_authenticate_server ssh_is_server_known session).1
        = Except.ok (SCM.sym "file-not-found")
        ↔ (ssh_is_server_known session).1 = SSH_SERVER_FILE_NOT_FOUND) ∧
    (((ssh_is_server_known session).1 = SSH_SERVER_ERROR ∨
        ((ssh_is_server_known session).1 ≠ SSH_SERVER_KNOWN_OK ∧
         (ssh_is_server_known session).1 ≠ SSH_SERVER_KNOWN_CHANGED ∧
         (ssh_is_server_known session).1 ≠ SSH_SERVER_FOUND_OTHER ∧
         (ssh_is_server_known session).1 ≠ SSH_SERVER_NOT_KNOWN ∧
         (ssh_is_server_known session).1 ≠ SSH_SERVER_FILE_NOT_FOUND)) →
      (guile_ssh_authenticate_server ssh_is_server_known session).1 =
        Except.error (GuileError.guile_ssh_error "authenticate-server"
          (ssh_get_error (ssh_is_server_known session).2)
          (SCM.session (ssh_is_server_known session).2))) ∧
    (∀ v, (guile_ssh_authenticate_server ssh_is_server_known session).1 = Except.ok v →
      v = SCM.sym "ok" ∨ v = SCM.sym "known-changed" ∨ v = SCM.sym "found-other" ∨
      v = SCM.sym "not-known" ∨ v = SCM.sym "file-not-found") ∧
    (guile_ssh_authenticate_server ssh_is_server_known session).1
      ≠ Except.ok (SCM.sym "again") ∧
    (guile_ssh_authenticate_server ssh_is_server_known session).1
      ≠ Except.ok (SCM.sym "error") := by
  unfold guile_ssh_authenticate_server
  simp only [SSH_SERVER_ERROR, SSH_SERVER_KNOWN_OK, SSH_SERVER_KNOWN_CHANGED,
    SSH_SERVER_FOUND_OTHER, SSH_SERVER_NOT_KNOWN, SSH_SERVER_FILE_NOT_FOUND,
    scm_from_locale_symbol, guile_ssh_error1]
  generalize (ssh_is_server_known session).1 = res
  generalize (ssh_is_server_known session).2 = s2
  by_cases h1 : res = 1
  · subst h1; simp
  by_cases h2 : res = 2
  · subst h2; simp
  by_cases h3 : res = 3
  · subst h3; simp
  by_cases h0 : res = 0
  · subst h0; simp
  by_cases h4 : res = 4
  · subst h4; simp
  simp [h0, h1, h2, h3, h4]

/-- Witness for C2: an unnamed status raises with the native diagnostic. -/
theorem authenticate_server_result_witness :
    (guile_ssh_authenticate_server odd_server_known fresh_session).1 =
      Except.error (GuileError.guile_ssh_error "authenticate-server" "unexpected state"
        (SCM.session { error := "unexpected state", calls := [] })) :=
  (authenticate_server_result odd_server_known fresh_session).2.2.2.2.2.1
    (Or.inr (by decide))

/-- C3, as the code has it: for every timeout that fits a C int and every
status of `ssh_blocking_flush`, `blocking-flush!` does not raise and returns
one of three symbols: ok exactly for `SSH_OK`, again exactly for `SSH_AGAIN`,
error exactly for every other status.  The value is the bare symbol, chosen
from the status alone; it carries no diagnostic. -/
theorem blocking_flush_result (ssh_blocking_flush : ssh_session → Int → Int × ssh_session)
    (session : ssh_session) (t : Int) (hlo : INT_MIN ≤ t) (hhi : t ≤ INT_MAX) :
    ((guile_ssh_blocking_flush ssh_blocking_flush session (SCM.int t)).1
        = Except.ok (SCM.sym "ok") ↔ (ssh_blocking_flush session t).1 = SSH_OK) ∧
    ((guile_ssh_blocking_flush ssh_blocking_flush session (SCM.int t)).1
        = Except.ok (SCM.sym "again") ↔ (ssh_blocking_flush session t).1 = SSH_AGAIN) ∧
    ((guile_ssh_blocking_flush ssh_blocking_flush session (SCM.int t)).1
        = Except.ok (SCM.sym "error") ↔
          ((ssh_blocking_flush session t).1 ≠ SSH_OK ∧
           (ssh_blocking_flush session t).1 ≠ SSH_AGAIN)) ∧
    ((guile_ssh_blocking_flush ssh_blocking_flush session (SCM.int t)).1
        = Except.ok (SCM.sym "ok") ∨
     (guile_ssh_blocking_flush ssh_blocking_flush session (SCM.int t)).1
        = Except.ok (SCM.sym "again") ∨
     (guile_ssh_blocking_flush ssh_blocking_flush session (SCM.int t)).1
        = Except.ok (SCM.sym "error")) ∧
    carried_diagnostic (guile_ssh_blocking_flush ssh_blocking_flush session (SCM.int t)).1
      = none := by
  have hconv : scm_to_int (SCM.int t) = Except.ok t := by
    simp [scm_to_int, hlo, hhi]
  unfold guile_ssh_blocking_flush
  simp only [SCM_ASSERT, scm_is_integer, if_true, hconv, scm_from_locale_symbol]
  generalize (ssh_blocking_flush session t).1 = res
  by_cases h1 : res = SSH_OK
  · subst h1; simp [SSH_OK, SSH_AGAIN, carried_diagnostic]
  by_cases h2 : res = SSH_AGAIN
  · subst h2; simp [SSH_OK, SSH_AGAIN, carried_diagnostic]
  simp [h1, h2, carried_diagnostic]

/-- Witness for C3: a failing flush with timeout 30 returns the symbol error. -/
theorem blocking_flush_result_witness :
    (INT_MIN ≤ 30 ∧ (30 : Int) ≤ INT_MAX) ∧
    (guile_ssh_blocking_flush failing_flush fresh_session (SCM.int 30)).1
      = Except.ok (SCM.sym "error") :=
  ⟨by decide,
   ((blocking_flush_result failing_flush fresh_session 30 (by decide) (by decide)).2.2.1).2
    ⟨by decide, by decide⟩⟩

/-- Counterexample to C3 as stated: the native flush reports `SSH_ERROR` on a
session whose diagnostic is empty; `blocking-flush!` returns the symbol error,
and no non-empty diagnostic comes with it, neither carried by the result nor
retrievable from the session. -/
theorem blocking_flush_error_without_diagnostic :
    ¬ ((guile_ssh_blocking_flush failing_flush fresh_session (SCM.int 0)).1
          = Except.ok (SCM.sym "error") →
        ∃ d : String, d ≠ "" ∧
          (carried_diagnostic (guile_ssh_blocking_flush failing_flush fresh_session
              (SCM.int 0)).1 = some d ∨
           ssh_get_error (guile_ssh_blocking_flush failing_flush fresh_session
              (SCM.int 0)).2 = d)) := by
  intro h
  obtain ⟨d, hd, h1 | h2⟩ := h rfl
  · exact absurd h1 (by simp [guile_ssh_blocking_flush, failing_flush, SCM_ASSERT, scm_is_integer,
      scm_to_int, INT_MIN, INT_MAX, SSH_ERROR, SSH_OK, SSH_AGAIN, carried_diagnostic,
      scm_from_locale_symbol])
  · exact hd h2.symm

/-! ## session-set! -/

/-- A symbol that the table knows is found by the lookup. -/
theorem any_symbol_find (sm : List symbol_mapping) (name : String)
    (h : sm.any (fun t => t.symbol == name) = true) :
    ∃ o, sm.find? (fun t => t.symbol == name) = some o := by
  induction sm with
  | nil => simp at h
  | cons a t ih =>
    by_cases ha : (a.symbol == name) = true
    · exact ⟨a, by simp [List.find?, ha]⟩
    · simp only [List.any_cons, Bool.or_eq_true] at h
      rcases h with h | h
      · exact absurd h ha
      · obtain ⟨o, ho⟩ := ih h
        exact ⟨o, by simp [List.find?, ha, ho]⟩

/-- A symbol that the table does not know is not found by the lookup. -/
theorem not_any_symbol_find (sm : List symbol_mapping) (name : String)
    (h : sm.any (fun t => t.symbol == name) = false) :
    sm.find? (fun t => t.symbol == name) = none := by
  induction sm with
  | nil => rfl
  | cons a t ih =>
    simp only [List.any_cons, Bool.or_eq_false_iff] at h
    simp [List.find?, h.1, ih h.2]

/-- The switch of `set_option` sends every option of `session_options` to the
setter of the kind that the specification lists for it. -/
theorem set_option_c_dispatch (status : ssh_session → Int → CValue → Int)
    (lv : List symbol_mapping) (session : ssh_session) (opt : symbol_mapping) (k : ValueKind)
    (value : SCM) (hopt : opt ∈ session_options) (hk : spec_value_kind opt.symbol = some k) :
    set_option_c status lv session opt.value value =
      setter_of_kind status lv k session opt.value value := by
  simp only [session_options, List.mem_cons, List.mem_singleton, List.not_mem_nil, or_false] at hopt
  rcases hopt with h | h | h | h | h | h | h | h | h | h | h | h | h | h | h | h | h | h | h | h | h <;>
    subst h <;>
    simp [spec_value_kind] at hk <;>
    subst hk <;>
    rfl

/-- A value that passes validation reaches the native setter, converted as
the specification says, and the setter returns what the native call
answered. -/
theorem setter_of_kind_valid (status : ssh_session → Int → CValue → Int)
    (lv : List symbol_mapping) (session : ssh_session) (type : Int) (k : ValueKind)
    (value : SCM) (hv : spec_passes_validation lv k value = true) :
    ∃ cv, spec_native_value lv k value = some cv ∧
      setter_of_kind status lv k session type value =
      (Except.ok (status session type cv),
        { session with calls :=
            { type := type, value := cv, status := status session type cv } :: session.calls }) := by
  cases k <;> cases value <;>
    simp only [spec_passes_validation, spec_has_kind, Bool.and_eq_true, Bool.false_and,
      Bool.false_eq_true, decide_eq_true_eq, false_and, and_false] at hv
  case String.str s =>
    have h : has_nul s = false := by simpa using hv.2
    refine ⟨CValue.c_string s, rfl, ?_⟩
    simp [setter_of_kind, set_string_opt, SCM_ASSERT, scm_is_string, scm_to_locale_string,
      ssh_options_set, h]
  case Bool.bool b =>
    cases b
    · exact ⟨_, rfl, rfl⟩
    · exact ⟨_, rfl, rfl⟩
  case UInt32.int n =>
    have h : 0 ≤ n ∧ n ≤ UINT32_MAX := by simpa [UINT32_MAX] using hv.1
    refine ⟨CValue.c_uint32 n, rfl, ?_⟩
    simp [setter_of_kind, set_uint32_opt, SCM_ASSERT, scm_is_unsigned_integer, scm_to_uint32,
      ssh_options_set, h]
  case UInt64.int n =>
    have h : 0 ≤ n ∧ n ≤ UINT64_MAX := by simpa [UINT64_MAX] using hv.1
    refine ⟨CValue.c_uint64 n, rfl, ?_⟩
    simp [setter_of_kind, set_uint64_opt, SCM_ASSERT, scm_is_unsigned_integer, scm_to_uint64,
      ssh_options_set, h]
  case Int32.int n =>
    have h : INT_MIN ≤ n ∧ n ≤ INT_MAX := by simpa [INT_MIN, INT_MAX] using hv.2
    refine ⟨CValue.c_int32 n, rfl, ?_⟩
    simp [setter_of_kind, set_int32_opt, SCM_ASSERT, scm_is_integer, scm_to_int,
      ssh_options_set, h]
  case PortFD.port fileno =>
    cases fileno with
    | none => simp at hv
    | some fd =>
      have h : INT_MIN ≤ fd ∧ fd ≤ INT_MAX := by simpa [INT_MIN, INT_MAX] using hv.2
      refine ⟨CValue.c_socket fd, rfl, ?_⟩
      simp [setter_of_kind, set_port_opt, SCM_ASSERT, scm_word_nonzero, scm_fileno, scm_to_int,
        ssh_options_set, h]
  case SymbolicConstant.sym name =>
    obtain ⟨o, ho⟩ := any_symbol_find lv name hv.1
    refine ⟨CValue.c_const o.value, by simp [spec_native_value, ho], ?_⟩
    simp [setter_of_kind, set_sym_opt, _scm_to_ssh_const, ho, ssh_options_set]

/-- A value of the wrong kind is refused before the native setter is called. -/
theorem setter_of_kind_wrong_kind (status : ssh_session → Int → CValue → Int)
    (lv : List symbol_mapping) (session : ssh_session) (type : Int) (k : ValueKind)
    (value : SCM) (hv : spec_has_kind lv k value = false) :
    (setter_of_kind status lv k session type value).2 = session ∧
    (((k = ValueKind.SymbolicConstant ∧ scm_is_symbol value = true) ∧
      (setter_of_kind status lv k session type value).1 =
        Except.error (GuileError.guile_ssh_error "session-set!" "Wrong value" value)) ∨
     (¬ (k = ValueKind.SymbolicConstant ∧ scm_is_symbol value = true) ∧
      ∃ subr pos, (setter_of_kind status lv k session type value).1 =
        Except.error (GuileError.wrong_type_arg subr pos value))) := by
  cases k <;> cases value <;>
    simp only [spec_has_kind, Bool.true_eq_false, decide_eq_false_iff_not] at hv <;>
    first
      | exact ⟨rfl, Or.inr ⟨by simp [scm_is_symbol], _, _, rfl⟩⟩
      | skip
  case UInt32.int n =>
    have h : ¬ (0 ≤ n ∧ n ≤ UINT32_MAX) := by simpa [UINT32_MAX] using hv
    refine ⟨?_, Or.inr ⟨by simp, some "session-set!", SCM_ARG3, ?_⟩⟩ <;>
      simp [setter_of_kind, set_uint32_opt, SCM_ASSERT, scm_is_unsigned_integer, h]
  case UInt64.int n =>
    have h : ¬ (0 ≤ n ∧ n ≤ UINT64_MAX) := by simpa [UINT64_MAX] using hv
    refine ⟨?_, Or.inr ⟨by simp, some "session-set!", SCM_ARG3, ?_⟩⟩ <;>
      simp [setter_of_kind, set_uint64_opt, SCM_ASSERT, scm_is_unsigned_integer, h]
  case Int32.inexact q =>
    by_cases h : (q.den == 1) = true
    · refine ⟨?_, Or.inr ⟨by simp, none, 0, ?_⟩⟩ <;>
        simp [setter_of_kind, set_int32_opt, SCM_ASSERT, scm_is_integer, scm_to_int, h]
    · refine ⟨?_, Or.inr ⟨by simp, some "session-set!", SCM_ARG3, ?_⟩⟩ <;>
        simp [setter_of_kind, set_int32_opt, SCM_ASSERT, scm_is_integer, h]
  case SymbolicConstant.sym name =>
    have h := not_any_symbol_find lv name hv
    refine ⟨?_, Or.inl ⟨⟨rfl, rfl⟩, ?_⟩⟩ <;>
      simp [setter_of_kind, set_sym_opt, _scm_to_ssh_const, h, guile_ssh_error1]

theorem set_string_opt_outcome (status : ssh_session → Int → CValue → Int)
    (session : ssh_session) (type : Int) (value : SCM) :
    setter_outcome status session type (set_string_opt status session type value) := by
  unfold setter_outcome
  cases value <;>
    simp only [set_string_opt, SCM_ASSERT, scm_is_string, scm_to_locale_string,
      ssh_options_set] <;>
    split_ifs <;>
    first
      | exact Or.inl ⟨rfl, _, rfl⟩
      | exact Or.inr ⟨_, rfl⟩

theorem set_uint64_opt_outcome (status : ssh_session → Int → CValue → Int)
    (session : ssh_session) (type : Int) (value : SCM) :
    setter_outcome status session type (set_uint64_opt status session type value) := by
  unfold setter_outcome
  cases value <;>
    simp only [set_uint64_opt, SCM_ASSERT, scm_is_unsigned_integer, scm_to_uint64,
      ssh_options_set, Bool.and_eq_true, decide_eq_true_eq] <;>
    split_ifs <;>
    first
      | exact Or.inl ⟨rfl, _, rfl⟩
      | exact Or.inr ⟨_, rfl⟩

theorem set_uint32_opt_outcome (status : ssh_session → Int → CValue → Int)
    (session : ssh_session) (type : Int) (value : SCM) :
    setter_outcome status session type (set_uint32_opt status session type value) := by
  unfold setter_outcome
  cases value <;>
    simp only [set_uint32_opt, SCM_ASSERT, scm_is_unsigned_integer, scm_to_uint32,
      ssh_options_set, Bool.and_eq_true, decide_eq_true_eq] <;>
    split_ifs <;>
    first
      | exact Or.inl ⟨rfl, _, rfl⟩
      | exact Or.inr ⟨_, rfl⟩

theorem set_int32_opt_outcome (status : ssh_session → Int → CValue → Int)
    (session : ssh_session) (type : Int) (value : SCM) :
    setter_outcome status session type (set_int32_opt status session type value) := by
  unfold setter_outcome
  cases value <;>
    simp only [set_int32_opt, SCM_ASSERT, scm_is_integer, scm_to_int, ssh_options_set] <;>
    split_ifs <;>
    first
      | exact Or.inl ⟨rfl, _, rfl⟩
      | exact Or.inr ⟨_, rfl⟩

theorem set_bool_opt_outcome (status : ssh_session → Int → CValue → Int)
    (session : ssh_session) (type : Int) (value : SCM) :
    setter_outcome status session type (set_bool_opt status session type value) := by
  unfold setter_outcome
  cases value <;>
    first
      | exact Or.inl ⟨rfl, _, rfl⟩
      | exact Or.inr ⟨_, rfl⟩

theorem set_port_opt_outcome (status : ssh_session → Int → CValue → Int)
    (session : ssh_session) (type : Int) (value : SCM) :
    setter_outcome status session type (set_port_opt status session type value) := by
  unfold setter_outcome
  cases value with
  | port fileno =>
    cases fileno with
    | none => exact Or.inl ⟨rfl, _, rfl⟩
    | some fd =>
      simp only [set_port_opt, SCM_ASSERT, scm_word_nonzero, scm_fileno, scm_to_int,
        ssh_options_set]
      split_ifs <;>
      first
        | exact Or.inl ⟨rfl, _, rfl⟩
        | exact Or.inr ⟨_, rfl⟩
  | _ => exact Or.inl ⟨rfl, _, rfl⟩

theorem set_sym_opt_outcome (status : ssh_session → Int → CValue → Int)
    (sm : List symbol_mapping) (session : ssh_session) (type : Int) (value : SCM) :
    setter_outcome status session type (set_sym_opt status session type sm value) := by
  unfold setter_outcome
  cases value with
  | sym name =>
    simp only [set_sym_opt, _scm_to_ssh_const]
    cases List.find? (fun t => t.symbol == name) sm with
    | none => exact Or.inl ⟨rfl, _, rfl⟩
    | some o => exact Or.inr ⟨_, rfl⟩
  | _ => exact Or.inl ⟨rfl, _, rfl⟩

/-- Whatever the option id and the value, `set_option` raises before any
native call or makes exactly one. -/
theorem set_option_c_outcome (status : ssh_session → Int → CValue → Int)
    (lv : List symbol_mapping) (session : ssh_session) (type : Int) (value : SCM) :
    setter_outcome status session type (set_option_c status lv session type value) := by
  unfold set_option_c
  split_ifs
  · exact set_uint32_opt_outcome status session type value
  · exact set_string_opt_outcome status session type value
  · exact set_sym_opt_outcome status lv session type value
  · exact set_int32_opt_outcome status session type value
  · exact set_uint64_opt_outcome status session type value
  · exact set_bool_opt_outcome status session type value
  · exact set_port_opt_outcome status session type value
  · exact Or.inl ⟨rfl, _, rfl⟩

/-- Every entry of `session_options` is found under its own name. -/
theorem lookup_session_option (opt : symbol_mapping) (h : opt ∈ session_options) :
    _scm_to_ssh_const session_options (SCM.sym opt.symbol) = Except.ok (some opt) := by
  simp only [session_options, List.mem_cons, List.mem_singleton, List.not_mem_nil, or_false] at h
  rcases h with h | h | h | h | h | h | h | h | h | h | h | h | h | h | h | h | h | h | h | h | h <;>
    subst h <;> simp [_scm_to_ssh_const, session_options, List.find?]

/-- C4, as the code has it: for every option of `session_options` and every
value that is not of the kind the option is dispatched to, `session-set!`
raises, leaves the session as it was and makes no call of the native setter.
The exception is a `wrong-type-arg` on the value, except for log-verbosity
given a symbol that the table does not know: that raises the guile-ssh error
"Wrong value". -/
theorem session_set_wrong_kind (status : ssh_session → Int → CValue → Int)
    (lv : List symbol_mapping) (session : ssh_session) (opt : symbol_mapping) (k : ValueKind)
    (value : SCM) (hopt : opt ∈ session_options) (hk : spec_value_kind opt.symbol = some k)
    (hbad : spec_has_kind lv k value = false) :
    (guile_ssh_session_set status lv session (SCM.sym opt.symbol) value).2 = session ∧
    set_calls (guile_ssh_session_set status lv session (SCM.sym opt.symbol) value).2
      = set_calls session ∧
    (((k = ValueKind.SymbolicConstant ∧ scm_is_symbol value = true) ∧
      (guile_ssh_session_set status lv session (SCM.sym opt.symbol) value).1 =
        Except.error (GuileError.guile_ssh_error "session-set!" "Wrong value" value)) ∨
     (¬ (k = ValueKind.SymbolicConstant ∧ scm_is_symbol value = true) ∧
      ∃ subr pos, (guile_ssh_session_set status lv session (SCM.sym opt.symbol) value).1 =
        Except.error (GuileError.wrong_type_arg subr pos value))) := by
  have hw := setter_of_kind_wrong_kind status lv session opt.value k value hbad
  rw [← set_option_c_dispatch status lv session opt k value hopt hk] at hw
  obtain ⟨hs, he⟩ := hw
  have hgen : ∀ e, (set_option_c status lv session opt.value value).1 = Except.error e →
      guile_ssh_session_set status lv session (SCM.sym opt.symbol) value
        = (Except.error e, session) := by
    intro e h
    simp only [guile_ssh_session_set, SCM_ASSERT, scm_is_symbol, if_true,
      lookup_session_option opt hopt, h, hs]
  rcases he with ⟨hc, h⟩ | ⟨hc, subr, pos, h⟩
  · rw [hgen _ h]
    exact ⟨rfl, rfl, Or.inl ⟨hc, rfl⟩⟩
  · rw [hgen _ h]
    exact ⟨rfl, rfl, Or.inr ⟨hc, subr, pos, rfl⟩⟩

/-- C5, as the code has it: `session-set!` of port with an integer below 0
or above 2^32-1 raises `wrong-type-arg` on argument 3, the same exception as
for a value of the wrong kind and not a range error; it raises before the
native setter is called, so the session, its call count and the value of the
port option are what they were. -/
theorem session_set_port_out_of_range (status : ssh_session → Int → CValue → Int)
    (lv : List symbol_mapping) (session : ssh_session) (n : Int)
    (hn : n < 0 ∨ 2 ^ 32 - 1 < n) :
    (guile_ssh_session_set status lv session (SCM.sym "port") (SCM.int n)).1 =
      Except.error (GuileError.wrong_type_arg (some "session-set!") 3 (SCM.int n)) ∧
    raises is_type_mismatch
      (guile_ssh_session_set status lv session (SCM.sym "port") (SCM.int n)).1 = true ∧
    raises is_range_error
      (guile_ssh_session_set status lv session (SCM.sym "port") (SCM.int n)).1 = false ∧
    (guile_ssh_session_set status lv session (SCM.sym "port") (SCM.int n)).2 = session ∧
    set_calls (guile_ssh_session_set status lv session (SCM.sym "port") (SCM.int n)).2
      = set_calls session ∧
    option_value (guile_ssh_session_set status lv session (SCM.sym "port") (SCM.int n)).2
      SSH_OPTIONS_PORT = option_value session SSH_OPTIONS_PORT := by
  have h : ¬ (0 ≤ n ∧ n ≤ UINT32_MAX) := by
    simp only [UINT32_MAX]; omega
  have hres : guile_ssh_session_set status lv session (SCM.sym "port") (SCM.int n) =
      (Except.error (GuileError.wrong_type_arg (some "session-set!") 3 (SCM.int n)), session) := by
    have hl := lookup_session_option ⟨"port", SSH_OPTIONS_PORT⟩ (by simp [session_options])
    simp only at hl
    simp only [guile_ssh_session_set, SCM_ASSERT, scm_is_symbol, if_true, hl]
    simp [set_option_c, set_uint32_opt, SCM_ASSERT, scm_is_unsigned_integer, h, SCM_ARG3]
  rw [hres]
  exact ⟨rfl, rfl, rfl, rfl, rfl, rfl⟩

/-- The three ways `session-set!` can go for an option symbol. -/
theorem session_set_cases (status : ssh_session → Int → CValue → Int)
    (lv : List symbol_mapping) (session : ssh_session) (name : String) (value : SCM) :
    (session_options.find? (fun t => t.symbol == name) = none ∧
      guile_ssh_session_set status lv session (SCM.sym name) value =
        (Except.error (GuileError.guile_ssh_error "session-set!" "No such option"
          (SCM.sym name)), session)) ∨
    (∃ opt e, session_options.find? (fun t => t.symbol == name) = some opt ∧
      set_option_c status lv session opt.value value = (Except.error e, session) ∧
      guile_ssh_session_set status lv session (SCM.sym name) value
        = (Except.error e, session)) ∨
    (∃ opt cv, session_options.find? (fun t => t.symbol == name) = some opt ∧
      set_option_c status lv session opt.value value =
        (Except.ok (status session opt.value cv),
          { session with calls :=
              { type := opt.value, value := cv, status := status session opt.value cv }
                :: session.calls }) ∧
      guile_ssh_session_set status lv session (SCM.sym name) value =
        (if status session opt.value cv ≠ SSH_OK then
            Except.error (GuileError.guile_ssh_error "session-set!" "Unable to set the option"
              (SCM.sym name))
          else Except.ok SCM_UNDEFINED,
         { session with calls :=
            { type := opt.value, value := cv, status := status session opt.value cv }
              :: session.calls })) := by
  cases hf : session_options.find? (fun t => t.symbol == name) with
  | none =>
    left
    refine ⟨rfl, ?_⟩
    simp only [guile_ssh_session_set, SCM_ASSERT, scm_is_symbol, if_true, _scm_to_ssh_const, hf,
      guile_ssh_error1]
  | some opt =>
    right
    rcases set_option_c_outcome status lv session opt.value value with ⟨hs, e, he⟩ | ⟨cv, hcv⟩
    · left
      refine ⟨opt, e, rfl, ?_, ?_⟩
      · exact Prod.ext he hs
      · simp only [guile_ssh_session_set, SCM_ASSERT, scm_is_symbol, if_true, _scm_to_ssh_const,
          hf, he, hs]
    · right
      refine ⟨opt, cv, rfl, hcv, ?_⟩
      simp only [guile_ssh_session_set, SCM_ASSERT, scm_is_symbol, if_true, _scm_to_ssh_const,
        hf, hcv, guile_ssh_error1]
      split_ifs <;> rfl

/-- Every option of `session_options` has a kind in the specification. -/
theorem session_option_has_kind (opt : symbol_mapping) (h : opt ∈ session_options) :
    ∃ k, spec_value_kind opt.symbol = some k := by
  simp only [session_options, List.mem_cons, List.mem_singleton, List.not_mem_nil, or_false] at h
  rcases h with h | h | h | h | h | h | h | h | h | h | h | h | h | h | h | h | h | h | h | h | h <;>
    subst h <;> simp [spec_value_kind]

/-- A value that does not pass validation is refused before the native
setter is called. -/
theorem setter_of_kind_invalid (status : ssh_session → Int → CValue → Int)
    (lv : List symbol_mapping) (session : ssh_session) (type : Int) (k : ValueKind)
    (value : SCM) (hv : spec_passes_validation lv k value = false) :
    (setter_of_kind status lv k session type value).2 = session ∧
    ∃ e, (setter_of_kind status lv k session type value).1 = Except.error e := by
  by_cases hk : spec_has_kind lv k value = false
  · obtain ⟨h1, h2⟩ := setter_of_kind_wrong_kind status lv session type k value hk
    refine ⟨h1, ?_⟩
    rcases h2 with ⟨_, h⟩ | ⟨_, _, _, h⟩
    · exact ⟨_, h⟩
    · exact ⟨_, h⟩
  · have hk2 : spec_has_kind lv k value = true := by simpa using hk
    simp only [spec_passes_validation, hk2, Bool.true_and] at hv
    cases k <;> cases value <;>
      simp only [spec_has_kind, Bool.false_eq_true, Bool.true_eq_false] at hk2 hv
    · rename_i s
      have h : has_nul s = true := by simpa using hv
      refine ⟨?_, ?_⟩ <;>
        simp [setter_of_kind, set_string_opt, SCM_ASSERT, scm_is_string, scm_to_locale_string, h]
    · rename_i n
      have h : ¬ (INT_MIN ≤ n ∧ n ≤ INT_MAX) := by simpa [INT_MIN, INT_MAX] using hv
      refine ⟨?_, ?_⟩ <;>
        simp [setter_of_kind, set_int32_opt, SCM_ASSERT, scm_is_integer, scm_to_int, h]
    · rename_i fileno
      cases fileno with
      | none => exact ⟨rfl, _, rfl⟩
      | some fd =>
        have h : ¬ (INT_MIN ≤ fd ∧ fd ≤ INT_MAX) := by simpa [INT_MIN, INT_MAX] using hv
        refine ⟨?_, ?_⟩ <;>
          simp [setter_of_kind, set_port_opt, SCM_ASSERT, scm_word_nonzero, scm_fileno,
            scm_to_int, h]

/-- What `session-set!` does for an option symbol, in full: either no option
of that name with a kind accepts the value, and it raises without a native
call; or the option is in `session_options`, the value passes validation, one
native call is made with the id of the option and the converted value, and
the outcome follows the status that this call returned. -/
theorem session_set_exact (status : ssh_session → Int → CValue → Int)
    (lv : List symbol_mapping) (session : ssh_session) (name : String) (value : SCM) :
    (((guile_ssh_session_set status lv session (SCM.sym name) value).2 = session ∧
      ∃ e, (guile_ssh_session_set status lv session (SCM.sym name) value).1 = Except.error e) ∧
      ∀ opt k, opt ∈ session_options → opt.symbol = name → spec_value_kind name = some k →
        spec_passes_validation lv k value = true → False) ∨
    (∃ opt k cv, opt ∈ session_options ∧ opt.symbol = name ∧ spec_value_kind name = some k ∧
      spec_passes_validation lv k value = true ∧ spec_native_value lv k value = some cv ∧
      guile_ssh_session_set status lv session (SCM.sym name) value =
        (if status session opt.value cv ≠ SSH_OK then
            Except.error (GuileError.guile_ssh_error "session-set!" "Unable to set the option"
              (SCM.sym name))
          else Except.ok SCM_UNDEFINED,
         { session with calls :=
            { type := opt.value, value := cv, status := status session opt.value cv }
              :: session.calls })) := by
  have hfind : ∀ opt, opt ∈ session_options → opt.symbol = name →
      session_options.find? (fun t => t.symbol == name) = some opt := by
    intro opt hopt hname
    have := lookup_session_option opt hopt
    simp only [_scm_to_ssh_const, hname, Except.ok.injEq] at this
    exact this
  rcases session_set_cases status lv session name value with
    ⟨hf, hr⟩ | ⟨opt, e, hf, he, hr⟩ | ⟨opt, cv0, hf, hset, hr⟩
  · left
    rw [hr]
    refine ⟨⟨rfl, _, rfl⟩, ?_⟩
    intro opt k hopt hname _ _
    rw [hfind opt hopt hname] at hf
    exact absurd hf (by simp)
  · left
    rw [hr]
    refine ⟨⟨rfl, _, rfl⟩, ?_⟩
    intro opt2 k hopt hname hk hv
    have h2 := hfind opt2 hopt hname
    rw [hf] at h2
    obtain rfl : opt = opt2 := Option.some.inj h2
    obtain ⟨cv, _, hcv⟩ := setter_of_kind_valid status lv session opt.value k value hv
    rw [← set_option_c_dispatch status lv session opt k value hopt (hname ▸ hk), he] at hcv
    exact absurd (congrArg Prod.fst hcv) (by simp)
  · right
    have hopt : opt ∈ session_options := List.mem_of_find?_eq_some hf
    have hname : opt.symbol = name := by
      have := List.find?_some hf
      simpa using this
    obtain ⟨k, hk⟩ := session_option_has_kind opt hopt
    have hdisp := set_option_c_dispatch status lv session opt k value hopt hk
    by_cases hv : spec_passes_validation lv k value = true
    · obtain ⟨cv, hnat, hcv⟩ := setter_of_kind_valid status lv session opt.value k value hv
      rw [← hdisp, hset] at hcv
      have hcalls := congrArg (fun r => r.2.calls) hcv
      simp only [List.cons.injEq, options_set_call.mk.injEq, true_and, and_true] at hcalls
      obtain rfl : cv0 = cv := hcalls.1
      exact ⟨opt, k, cv0, hopt, hname, hname ▸ hk, hv, hnat, hr⟩
    · have hv2 : spec_passes_validation lv k value = false := by simpa using hv
      obtain ⟨_, e, he⟩ := setter_of_kind_invalid status lv session opt.value k value hv2
      rw [← hdisp, hset] at he
      exact absurd he (by simp)

/-- C10: `session-set!` makes at most one call of the native setter and never
retries: the session afterwards is the session before, or the session before
with one more recorded call; the call is made whenever the option symbol is
in `session_options` and the value passes validation; a normal return
implies that the one call was made and returned `SSH_OK`; and a call that
returned any other status makes it raise "Unable to set the option".  The
recorded call is the native call: it carries the id of the option, the value
converted as the specification says, and the status that the native setter
answered for them; without such a call the procedure raises. -/
theorem session_set_one_native_call (status : ssh_session → Int → CValue → Int)
    (lv : List symbol_mapping) (session : ssh_session) (name : String) (value : SCM) :
    ((guile_ssh_session_set status lv session (SCM.sym name) value).2 = session ∨
      ∃ c, (guile_ssh_session_set status lv session (SCM.sym name) value).2
        = { session with calls := c :: session.calls }) ∧
    set_calls (guile_ssh_session_set status lv session (SCM.sym name) value).2
      ≤ set_calls session + 1 ∧
    (∀ opt k, opt ∈ session_options → opt.symbol = name → spec_value_kind name = some k →
      spec_passes_validation lv k value = true →
      set_calls (guile_ssh_session_set status lv session (SCM.sym name) value).2
        = set_calls session + 1) ∧
    (∀ v, (guile_ssh_session_set status lv session (SCM.sym name) value).1 = Except.ok v →
      v = SCM_UNDEFINED ∧
      ∃ c, (guile_ssh_session_set status lv session (SCM.sym name) value).2.calls
          = c :: session.calls ∧ c.status = SSH_OK) ∧
    (∀ c, (guile_ssh_session_set status lv session (SCM.sym name) value).2.calls
          = c :: session.calls → c.status ≠ SSH_OK →
      (guile_ssh_session_set status lv session (SCM.sym name) value).1 =
        Except.error (GuileError.guile_ssh_error "session-set!" "Unable to set the option"
          (SCM.sym name))) ∧
    (∀ opt k, opt ∈ session_options → opt.symbol = name → spec_value_kind name = some k →
      spec_passes_validation lv k value = true →
      ∃ cv, spec_native_value lv k value = some cv ∧
        guile_ssh_session_set status lv session (SCM.sym name) value =
          (if status session opt.value cv ≠ SSH_OK then
              Except.error (GuileError.guile_ssh_error "session-set!"
                "Unable to set the option" (SCM.sym name))
            else Except.ok SCM_UNDEFINED,
           { session with calls :=
              { type := opt.value, value := cv, status := status session opt.value cv }
                :: session.calls })) ∧
    ((guile_ssh_session_set status lv session (SCM.sym name) value).2 ≠ session →
      ∃ opt k cv, opt ∈ session_options ∧ opt.symbol = name ∧
        spec_value_kind name = some k ∧ spec_passes_validation lv k value = true ∧
        spec_native_value lv k value = some cv ∧
        (guile_ssh_session_set status lv session (SCM.sym name) value).2 =
          { session with calls :=
              { type := opt.value, value := cv, status := status session opt.value cv }
                :: session.calls }) ∧
    ((guile_ssh_session_set status lv session (SCM.sym name) value).2 = session →
      ∃ e, (guile_ssh_session_set status lv session (SCM.sym name) value).1
        = Except.error e) := by
  have hself : ∀ (c : options_set_call), session.calls ≠ c :: session.calls :=
    fun c h => List.cons_ne_self c session.calls h.symm
  have hfind : ∀ opt, opt ∈ session_options → opt.symbol = name →
      session_options.find? (fun t => t.symbol == name) = some opt := by
    intro opt hopt hname
    have := lookup_session_option opt hopt
    simp only [_scm_to_ssh_const, hname, Except.ok.injEq] at this
    exact this
  rcases session_set_exact status lv session name value with
    ⟨⟨hs, e, he⟩, hnone⟩ | ⟨opt, k, cv, hopt, hname, hk, hv, hnat, hr⟩
  · rw [hs, he]
    refine ⟨Or.inl rfl, Nat.le_succ _, ?_, ?_, ?_, ?_, ?_, ?_⟩
    · intro opt k hopt hname hk hv
      exact absurd (hnone opt k hopt hname hk hv) id
    · intro v hv
      exact absurd hv (by simp)
    · intro c hc
      exact absurd hc (hself c)
    · intro opt k hopt hname hk hv
      exact absurd (hnone opt k hopt hname hk hv) id
    · intro h
      exact absurd rfl h
    · intro _
      exact ⟨e, rfl⟩
  · rw [hr]
    refine ⟨Or.inr ⟨_, rfl⟩, ?_, ?_, ?_, ?_, ?_, ?_, ?_⟩
    · simp [set_calls]
    · intro _ _ _ _ _ _
      simp [set_calls]
    · intro v hv
      by_cases hst : status session opt.value cv = SSH_OK
      · simp only [hst, ne_eq, not_true_eq_false, if_false, Except.ok.injEq] at hv
        exact ⟨hv.symm, _, rfl, hst⟩
      · simp [hst] at hv
    · intro c hc hne
      simp only [List.cons.injEq, and_true] at hc
      subst hc
      simp only at hne
      simp [hne]
    · intro opt2 k2 hopt2 hname2 hk2 _
      have h2 := hfind opt2 hopt2 hname2
      rw [hfind opt hopt hname] at h2
      obtain rfl : opt = opt2 := Option.some.inj h2
      obtain rfl : k = k2 := Option.some.inj (hk.symm.trans hk2)
      exact ⟨cv, hnat, rfl⟩
    · intro _
      exact ⟨opt, k, cv, hopt, hname, hk, hv, hnat, rfl⟩
    · intro h
      have hc := congrArg ssh_session.calls h
      exact absurd hc.symm (hself _)

/-- Witness for C4: a string given for the boolean option ssh1. -/
theorem session_set_wrong_kind_witness :
    ({ symbol := "ssh1", value := SSH_OPTIONS_SSH1 } ∈ session_options ∧
      spec_value_kind "ssh1" = some ValueKind.Bool ∧
      spec_has_kind log_verbosity_table ValueKind.Bool (SCM.str "yes") = false) ∧
    (guile_ssh_session_set accepting_setter log_verbosity_table fresh_session
        (SCM.sym "ssh1") (SCM.str "yes")).2 = fresh_session ∧
    set_calls (guile_ssh_session_set accepting_setter log_verbosity_table fresh_session
        (SCM.sym "ssh1") (SCM.str "yes")).2 = 0 :=
  ⟨⟨by decide, by decide, by decide⟩,
   (session_set_wrong_kind accepting_setter log_verbosity_table fresh_session
      { symbol := "ssh1", value := SSH_OPTIONS_SSH1 } ValueKind.Bool (SCM.str "yes")
      (by decide) (by decide) (by decide)).1,
   (session_set_wrong_kind accepting_setter log_verbosity_table fresh_session
      { symbol := "ssh1", value := SSH_OPTIONS_SSH1 } ValueKind.Bool (SCM.str "yes")
      (by decide) (by decide) (by decide)).2.1⟩

/-- Counterexample to C4 as stated: log-verbosity is in `session_options`, the
symbol bogus is not a known log-verbosity symbol, and `session-set!` raises
the guile-ssh error "Wrong value", which is not a type mismatch. -/
theorem session_set_unknown_verbosity_not_type_mismatch :
    ¬ (({ symbol := "log-verbosity", value := SSH_OPTIONS_LOG_VERBOSITY } : symbol_mapping)
          ∈ session_options →
        spec_value_kind "log-verbosity" = some ValueKind.SymbolicConstant →
        spec_has_kind log_verbosity_table ValueKind.SymbolicConstant (SCM.sym "bogus") = false →
        raises is_type_mismatch
          (guile_ssh_session_set accepting_setter log_verbosity_table fresh_session
            (SCM.sym "log-verbosity") (SCM.sym "bogus")).1 = true ∧
        set_calls (guile_ssh_session_set accepting_setter log_verbosity_table fresh_session
            (SCM.sym "log-verbosity") (SCM.sym "bogus")).2 = set_calls fresh_session) := by
  intro h
  exact absurd (h (by decide) (by decide) (by decide)).1 (by decide)

/-- Witness for C5: the port 2^32. -/
theorem session_set_port_out_of_range_witness :
    ((4294967296 : Int) < 0 ∨ 2 ^ 32 - 1 < (4294967296 : Int)) ∧
    (guile_ssh_session_set accepting_setter log_verbosity_table fresh_session
        (SCM.sym "port") (SCM.int 4294967296)).1 =
      Except.error (GuileError.wrong_type_arg (some "session-set!") 3 (SCM.int 4294967296)) :=
  ⟨by decide,
   (session_set_port_out_of_range accepting_setter log_verbosity_table fresh_session
      4294967296 (by decide)).1⟩

/-- Counterexample to C5 as stated: the port 2^32 is outside [0, 2^32-1] and
the exception that `session-set!` raises for it is not a range error. -/
theorem session_set_port_out_of_range_not_range_error :
    ¬ (((4294967296 : Int) < 0 ∨ 2 ^ 32 - 1 < (4294967296 : Int)) →
        raises is_range_error
          (guile_ssh_session_set accepting_setter log_verbosity_table fresh_session
            (SCM.sym "port") (SCM.int 4294967296)).1 = true ∧
        (guile_ssh_session_set accepting_setter log_verbosity_table fresh_session
            (SCM.sym "port") (SCM.int 4294967296)).2 = fresh_session) := by
  intro h
  exact absurd (h (by decide)).1 (by decide)

/-- Witness for C10: setting port to 22 makes exactly one native call; with
a native setter that refuses, the same call is made and the procedure
raises. -/
theorem session_set_one_native_call_witness :
    set_calls (guile_ssh_session_set accepting_setter log_verbosity_table fresh_session
        (SCM.sym "port") (SCM.int 22)).2 = set_calls fresh_session + 1 ∧
    (∃ cv, spec_native_value log_verbosity_table ValueKind.UInt32 (SCM.int 22) = some cv ∧
      guile_ssh_session_set rejecting_setter log_verbosity_table fresh_session
          (SCM.sym "port") (SCM.int 22) =
        (if rejecting_setter fresh_session SSH_OPTIONS_PORT cv ≠ SSH_OK then
            Except.error (GuileError.guile_ssh_error "session-set!"
              "Unable to set the option" (SCM.sym "port"))
          else Except.ok SCM_UNDEFINED,
         { fresh_session with calls :=
            { type := SSH_OPTIONS_PORT, value := cv,
              status := rejecting_setter fresh_session SSH_OPTIONS_PORT cv }
              :: fresh_session.calls })) ∧
    guile_ssh_session_set rejecting_setter log_verbosity_table fresh_session
        (SCM.sym "port") (SCM.int 22) =
      (Except.error (GuileError.guile_ssh_error "session-set!" "Unable to set the option"
          (SCM.sym "port")),
       { error := "", calls := [{ type := 1, value := CValue.c_uint32 22, status := -1 }] }) :=
  ⟨(session_set_one_native_call accepting_setter log_verbosity_table fresh_session
      "port" (SCM.int 22)).2.2.1
      { symbol := "port", value := SSH_OPTIONS_PORT } ValueKind.UInt32
      (by decide) rfl (by decide) (by decide),
   (session_set_one_native_call rejecting_setter log_verbosity_table fresh_session
      "port" (SCM.int 22)).2.2.2.2.2.1
      { symbol := "port", value := SSH_OPTIONS_PORT } ValueKind.UInt32
      (by decide) rfl (by decide) (by decide),
   rfl⟩

/-! ## get-public-key-hash -/

/-- A fresh bytevector has the length asked for. -/
theorem scm_c_make_bytevector_length (junk : Nat → Byte) (len : Nat) :
    (scm_c_make_bytevector junk len).length = len := by
  simp [scm_c_make_bytevector]

/-- The copy loop keeps the length of the bytevector, keeps the bytes below
`idx`, and stores the bytes of the buffer from `idx` up to `hash_len`. -/
theorem hash_copy_loop_spec (hash : List Byte) (hash_len : Nat) :
    ∀ (k idx : Nat) (ret : List Byte), hash_len - idx = k → ret.length = hash_len →
      (hash_copy_loop hash hash_len idx ret).length = hash_len ∧
      ∀ i, i < hash_len →
        (hash_copy_loop hash hash_len idx ret)[i]? =
          if i < idx then ret[i]? else some (hash.getD i 0) := by
  intro k
  induction k with
  | zero =>
    intro idx ret hk hlen
    have hge : ¬ idx < hash_len := by omega
    rw [hash_copy_loop]
    simp only [hge, if_false]
    refine ⟨hlen, ?_⟩
    intro i hi
    have : i < idx := by omega
    simp [this]
  | succ k ih =>
    intro idx ret hk hlen
    have hlt : idx < hash_len := by omega
    rw [hash_copy_loop]
    simp only [hlt, if_true]
    have hlen2 : (scm_c_bytevector_set_x ret idx (hash.getD idx 0)).length = hash_len := by
      simp [scm_c_bytevector_set_x, hlen]
    obtain ⟨h1, h2⟩ := ih (idx + 1) _ (by omega) hlen2
    refine ⟨h1, ?_⟩
    intro i hi
    rw [h2 i hi]
    by_cases hii : i < idx
    · have : i < idx + 1 := by omega
      have hne : idx ≠ i := by omega
      simp [this, hii, scm_c_bytevector_set_x, List.getElem?_set_ne hne]
    · by_cases heq : i = idx
      · subst heq
        have hil : i < ret.length := by omega
        simp [scm_c_bytevector_set_x, hil]
      · have : ¬ i < idx + 1 := by omega
        simp [this, hii]

/-- C9: `get-public-key-hash` never raises.  When `ssh_get_pubkey_hash`
reports a length n >= 0 and a buffer of n bytes, it returns a bytevector of
length n whose i-th element is the i-th byte of the buffer for every i < n;
for n = 0 that is the empty bytevector; for a negative length it returns
`#f`. -/
theorem get_public_key_hash_result (ssh_get_pubkey_hash : ssh_session → Int × List Byte)
    (junk : Nat → Byte) (session : ssh_session) :
    (∃ v, guile_ssh_get_public_key_hash ssh_get_pubkey_hash junk session = Except.ok v) ∧
    (0 ≤ (ssh_get_pubkey_hash session).1 →
      (ssh_get_pubkey_hash session).2.length = (ssh_get_pubkey_hash session).1.toNat →
      ∃ bv, guile_ssh_get_public_key_hash ssh_get_pubkey_hash junk session
          = Except.ok (SCM.bytevector bv) ∧
        bv.length = (ssh_get_pubkey_hash session).1.toNat ∧
        ∀ i, i < (ssh_get_pubkey_hash session).1.toNat →
          bv[i]? = (ssh_get_pubkey_hash session).2[i]?) ∧
    ((ssh_get_pubkey_hash session).1 = 0 →
      guile_ssh_get_public_key_hash ssh_get_pubkey_hash junk session
        = Except.ok (SCM.bytevector [])) ∧
    ((ssh_get_pubkey_hash session).1 < 0 →
      guile_ssh_get_public_key_hash ssh_get_pubkey_hash junk session
        = Except.ok SCM_BOOL_F) := by
  simp only [guile_ssh_get_public_key_hash, ge_iff_le]
  generalize (ssh_get_pubkey_hash session).1 = n
  generalize (ssh_get_pubkey_hash session).2 = hash
  refine ⟨?_, ?_, ?_, ?_⟩
  · by_cases h : 0 ≤ n <;> simp [h]
  · intro h0 hlen
    obtain ⟨h1, h2⟩ := hash_copy_loop_spec hash n.toNat n.toNat 0
      (scm_c_make_bytevector junk n.toNat) (by omega) (scm_c_make_bytevector_length junk _)
    refine ⟨_, by simp [h0], h1, ?_⟩
    intro i hi
    rw [h2 i hi]
    have hil : i < hash.length := by omega
    simp [List.getD, hil]
  · intro h0
    subst h0
    rw [Int.toNat_zero, hash_copy_loop]
    simp [scm_c_make_bytevector]
  · intro hneg
    have : ¬ 0 ≤ n := by omega
    simp [this]

/-- Witness for C9: a hash of three bytes. -/
theorem get_public_key_hash_result_witness :
    (0 ≤ (short_hash fresh_session).1 ∧
      (short_hash fresh_session).2.length = (short_hash fresh_session).1.toNat) ∧
    ∃ bv, guile_ssh_get_public_key_hash short_hash (fun _ => 0) fresh_session
        = Except.ok (SCM.bytevector bv) ∧
      bv.length = 3 ∧
      ∀ i, i < 3 → bv[i]? = ([0xde, 0xad, 0x42] : List Byte)[i]? :=
  ⟨⟨by decide, by decide⟩,
   (get_public_key_hash_result short_hash (fun _ => 0) fresh_session).2.1
      (by decide) (by decide)⟩

/-! ## Keys -/

/-- C6, as the code has it: `private-key->public-key` on a key handle that
is not a private key raises `wrong-type-arg` and makes no native export call;
on a private key it makes one native export call and, when that call returns
`SSH_OK`, returns a key handle of kind Public with `is_to_be_freed` = 1; for
every other status of the export it returns `#f` and no handle. -/
theorem public_key_from_private_key_result
    (ssh_pki_export_privkey_to_pubkey : Option Nat → Int × Option Nat)
    (mem : key_data) (key : key_data) :
    (_private_key_p key = false →
      guile_ssh_public_key_from_private_key ssh_pki_export_privkey_to_pubkey mem key =
        (Except.error (GuileError.wrong_type_arg (some "private-key->public-key") 1
          (SCM.key key)), 0)) ∧
    (_private_key_p key = true →
      (guile_ssh_public_key_from_private_key ssh_pki_export_privkey_to_pubkey mem key).2 = 1 ∧
      ((ssh_pki_export_privkey_to_pubkey key.ssh_key).1 = SSH_OK →
        ∃ k, (guile_ssh_public_key_from_private_key ssh_pki_export_privkey_to_pubkey mem key).1
            = Except.ok (SCM.key k) ∧
          k.key_type = KEY_TYPE.KEY_TYPE_PUBLIC ∧ k.is_to_be_freed = 1) ∧
      ((ssh_pki_export_privkey_to_pubkey key.ssh_key).1 ≠ SSH_OK →
        (guile_ssh_public_key_from_private_key ssh_pki_export_privkey_to_pubkey mem key).1
          = Except.ok SCM_BOOL_F)) := by
  constructor
  · intro h
    simp [guile_ssh_public_key_from_private_key, SCM_ASSERT, h, SCM_ARG1]
  · intro h
    simp only [guile_ssh_public_key_from_private_key, SCM_ASSERT, h, if_true]
    refine ⟨by split_ifs <;> rfl, ?_, ?_⟩
    · intro hok
      simp [hok]
    · intro hne
      simp [hne]

/-- Witness for C6: a private key with a working export, and a public key. -/
theorem public_key_from_private_key_result_witness :
    (guile_ssh_public_key_from_private_key export_ok fresh_key_mem some_private_key).2 = 1 ∧
    (∃ k, (guile_ssh_public_key_from_private_key export_ok fresh_key_mem some_private_key).1
            = Except.ok (SCM.key k) ∧
          k.key_type = KEY_TYPE.KEY_TYPE_PUBLIC ∧ k.is_to_be_freed = 1) ∧
    guile_ssh_public_key_from_private_key export_ok fresh_key_mem some_public_key =
        (Except.error (GuileError.wrong_type_arg (some "private-key->public-key") 1
          (SCM.key some_public_key)), 0) :=
  ⟨((public_key_from_private_key_result export_ok fresh_key_mem some_private_key).2 rfl).1,
   ((public_key_from_private_key_result export_ok fresh_key_mem some_private_key).2 rfl).2.1 rfl,
   (public_key_from_private_key_result export_ok fresh_key_mem some_public_key).1 rfl⟩

/-- Counterexample to C6 as stated: for a private key handle whose native
export reports `SSH_ERROR`, `private-key->public-key` does not yield a key
handle; it returns `#f`. -/
theorem public_key_from_private_key_may_return_false :
    ¬ (_private_key_p some_private_key = true →
        ∃ k, (guile_ssh_public_key_from_private_key export_error fresh_key_mem
              some_private_key).1 = Except.ok (SCM.key k) ∧
          k.key_type = KEY_TYPE.KEY_TYPE_PUBLIC ∧ k.is_to_be_freed = 1) := by
  intro h
  obtain ⟨k, hk, _⟩ := h rfl
  have hf : (guile_ssh_public_key_from_private_key export_error fresh_key_mem
      some_private_key).1 = Except.ok SCM_BOOL_F := rfl
  rw [hf] at hk
  simp [SCM_BOOL_F] at hk

/-- C7: the ownership flag follows the provenance of a key handle: every
handle that `private-key-from-file` returns and every handle that
`public-key-from-file` returns has `is_to_be_freed` = 0, and every handle
that `private-key->public-key` returns has `is_to_be_freed` = 1. -/
theorem key_ownership_by_provenance
    (ssh_pki_import_privkey_file ssh_pki_import_pubkey_file : String → Int × Option Nat)
    (ssh_pki_export_privkey_to_pubkey : Option Nat → Int × Option Nat)
    (mem : key_data) (session : ssh_session) (filename : SCM) (key : key_data) (k : key_data) :
    (guile_ssh_private_key_from_file ssh_pki_import_privkey_file mem session filename
        = Except.ok (SCM.key k) → k.is_to_be_freed = 0) ∧
    (guile_ssh_public_key_from_file ssh_pki_import_pubkey_file mem filename
        = Except.ok (SCM.key k) → k.is_to_be_freed = 0) ∧
    ((guile_ssh_public_key_from_private_key ssh_pki_export_privkey_to_pubkey mem key).1
        = Except.ok (SCM.key k) → k.is_to_be_freed = 1) := by
  refine ⟨?_, ?_, ?_⟩
  · intro h
    cases filename <;>
      simp only [guile_ssh_private_key_from_file, SCM_ASSERT, scm_is_string,
        scm_to_locale_string, Bool.false_eq_true, if_false, if_true, reduceCtorEq] at h
    split_ifs at h
    simp only at h
    split_ifs at h
    simp only [Except.ok.injEq, SCM.key.injEq] at h
    rw [← h]
  · intro h
    cases filename <;>
      simp only [guile_ssh_public_key_from_file, SCM_ASSERT, scm_is_string,
        scm_to_locale_string, Bool.false_eq_true, if_false, if_true, reduceCtorEq] at h
    split_ifs at h
    simp only at h
    split_ifs at h
    simp only [Except.ok.injEq, SCM.key.injEq] at h
    rw [← h]
  · intro h
    simp only [guile_ssh_public_key_from_private_key, SCM_ASSERT] at h
    split_ifs at h
    · simp [SCM_BOOL_F] at h
    · simp only [Except.ok.injEq, SCM.key.injEq] at h
      rw [← h]

/-- Witness for C7: the three creation operations on inputs where each
returns a handle. -/
theorem key_ownership_by_provenance_witness :
    (guile_ssh_private_key_from_file import_ok fresh_key_mem fresh_session (SCM.str "id_rsa")
        = Except.ok (SCM.key { key_type := KEY_TYPE.KEY_TYPE_PRIVATE, ssh_key := some 11,
                               is_to_be_freed := 0 }) ∧
     guile_ssh_public_key_from_file import_ok fresh_key_mem (SCM.str "id_rsa.pub")
        = Except.ok (SCM.key { key_type := KEY_TYPE.KEY_TYPE_PRIVATE, ssh_key := some 11,
                               is_to_be_freed := 0 }) ∧
     (guile_ssh_public_key_from_private_key export_ok fresh_key_mem some_private_key).1
        = Except.ok (SCM.key { key_type := KEY_TYPE.KEY_TYPE_PUBLIC, ssh_key := some 12,
                               is_to_be_freed := 1 })) ∧
    (({ key_type := KEY_TYPE.KEY_TYPE_PRIVATE, ssh_key := some 11,
        is_to_be_freed := 0 } : key_data).is_to_be_freed = 0 ∧
     ({ key_type := KEY_TYPE.KEY_TYPE_PUBLIC, ssh_key := some 12,
        is_to_be_freed := 1 } : key_data).is_to_be_freed = 1) :=
  ⟨⟨rfl, rfl, rfl⟩,
   (key_ownership_by_provenance import_ok import_ok export_ok fresh_key_mem fresh_session
      (SCM.str "id_rsa") some_private_key
      { key_type := KEY_TYPE.KEY_TYPE_PRIVATE, ssh_key := some 11, is_to_be_freed := 0 }).1 rfl,
   (key_ownership_by_provenance import_ok import_ok export_ok fresh_key_mem fresh_session
      (SCM.str "id_rsa") some_private_key
      { key_type := KEY_TYPE.KEY_TYPE_PUBLIC, ssh_key := some 12, is_to_be_freed := 1 }).2.2 rfl⟩

/-- C8: `private-key-from-file` and `public-key-from-file` tell two failures
apart by the status of the native import: `SSH_EOF` raises "The file does not
exist or permission denied" and `SSH_ERROR` raises "Unable to import a key
from the file"; the two exceptions differ, each carries the file name that
was passed in, and in neither case is a key handle returned.  The file name
reaches the native import as a C string, so these four cases are those of a
name without NUL; a name with NUL is refused by the conversion, before the
native import is called, and no key handle is returned either. -/
theorem key_import_failures
    (ssh_pki_import_privkey_file ssh_pki_import_pubkey_file : String → Int × Option Nat)
    (mem : key_data) (session : ssh_session) (path : String) :
    (has_nul path = false → (ssh_pki_import_privkey_file path).1 = SSH_EOF →
      guile_ssh_private_key_from_file ssh_pki_import_privkey_file mem session (SCM.str path) =
        Except.error (GuileError.guile_ssh_error "private-key-from-file"
          "The file does not exist or permission denied" (SCM.str path))) ∧
    (has_nul path = false → (ssh_pki_import_privkey_file path).1 = SSH_ERROR →
      guile_ssh_private_key_from_file ssh_pki_import_privkey_file mem session (SCM.str path) =
        Except.error (GuileError.guile_ssh_error "private-key-from-file"
          "Unable to import a key from the file" (SCM.str path))) ∧
    (has_nul path = false → (ssh_pki_import_pubkey_file path).1 = SSH_EOF →
      guile_ssh_public_key_from_file ssh_pki_import_pubkey_file mem (SCM.str path) =
        Except.error (GuileError.guile_ssh_error "public-key-from-file"
          "The file does not exist or permission denied" (SCM.str path))) ∧
    (has_nul path = false → (ssh_pki_import_pubkey_file path).1 = SSH_ERROR →
      guile_ssh_public_key_from_file ssh_pki_import_pubkey_file mem (SCM.str path) =
        Except.error (GuileError.guile_ssh_error "public-key-from-file"
          "Unable to import a key from the file" (SCM.str path))) ∧
    (∀ proc, GuileError.guile_ssh_error proc "The file does not exist or permission denied"
        (SCM.str path) ≠
      GuileError.guile_ssh_error proc "Unable to import a key from the file" (SCM.str path)) ∧
    (((ssh_pki_import_privkey_file path).1 = SSH_EOF ∨
        (ssh_pki_import_privkey_file path).1 = SSH_ERROR) →
      returns_key (guile_ssh_private_key_from_file ssh_pki_import_privkey_file mem session
        (SCM.str path)) = false) ∧
    (((ssh_pki_import_pubkey_file path).1 = SSH_EOF ∨
        (ssh_pki_import_pubkey_file path).1 = SSH_ERROR) →
      returns_key (guile_ssh_public_key_from_file ssh_pki_import_pubkey_file mem
        (SCM.str path)) = false) ∧
    (has_nul path = true →
      (∃ msg, guile_ssh_private_key_from_file ssh_pki_import_privkey_file mem session
          (SCM.str path) = Except.error (GuileError.misc_error none msg (SCM.str path))) ∧
      (∃ msg, guile_ssh_public_key_from_file ssh_pki_import_pubkey_file mem
          (SCM.str path) = Except.error (GuileError.misc_error none msg (SCM.str path)))) := by
  simp only [guile_ssh_private_key_from_file, guile_ssh_public_key_from_file, SCM_ASSERT,
    scm_is_string, scm_to_locale_string, if_true, guile_ssh_error1]
  refine ⟨?_, ?_, ?_, ?_, ?_, ?_, ?_, ?_⟩
  · intro hn h; simp [hn, h]
  · intro hn h; simp [hn, h, SSH_ERROR, SSH_EOF]
  · intro hn h; simp [hn, h]
  · intro hn h; simp [hn, h, SSH_ERROR, SSH_EOF]
  · intro proc h
    simp at h
  · rintro (h | h) <;> cases hn : has_nul path <;>
      simp [h, SSH_ERROR, SSH_EOF, returns_key]
  · rintro (h | h) <;> cases hn : has_nul path <;>
      simp [h, SSH_ERROR, SSH_EOF, returns_key]
  · intro hn
    simp [hn]

/-- Witness for C8: a missing file and an unparseable file. -/
theorem key_import_failures_witness :
    has_nul "/no/such/key" = false ∧
    guile_ssh_private_key_from_file import_eof fresh_key_mem fresh_session
        (SCM.str "/no/such/key") =
      Except.error (GuileError.guile_ssh_error "private-key-from-file"
        "The file does not exist or permission denied" (SCM.str "/no/such/key")) ∧
    guile_ssh_public_key_from_file import_error fresh_key_mem (SCM.str "/no/such/key") =
      Except.error (GuileError.guile_ssh_error "public-key-from-file"
        "Unable to import a key from the file" (SCM.str "/no/such/key")) :=
  ⟨by decide,
   (key_import_failures import_eof import_error fresh_key_mem fresh_session
      "/no/such/key").1 (by decide) rfl,
   (key_import_failures import_eof import_error fresh_key_mem fresh_session
      "/no/such/key").2.2.2.1 (by decide) rfl⟩

/-- For every status of the native import other than `SSH_EOF` and
`SSH_ERROR`, the two file imports raise nothing and return a key handle; when
the import stored no key, the handle wraps whatever the fresh memory held. -/
theorem key_from_file_other_status
    (ssh_pki_import_privkey_file ssh_pki_import_pubkey_file : String → Int × Option Nat)
    (mem : key_data) (session : ssh_session) (path : String) (hnul : has_nul path = false) :
    ((ssh_pki_import_privkey_file path).1 ≠ SSH_EOF →
      (ssh_pki_import_privkey_file path).1 ≠ SSH_ERROR →
      (ssh_pki_import_privkey_file path).2 = none →
      guile_ssh_private_key_from_file ssh_pki_import_privkey_file mem session (SCM.str path) =
        Except.ok (SCM.key { mem with is_to_be_freed := 0 })) ∧
    ((ssh_pki_import_pubkey_file path).1 ≠ SSH_EOF →
      (ssh_pki_import_pubkey_file path).1 ≠ SSH_ERROR →
      (ssh_pki_import_pubkey_file path).2 = none →
      guile_ssh_public_key_from_file ssh_pki_import_pubkey_file mem (SCM.str path) =
        Except.ok (SCM.key { mem with is_to_be_freed := 0 })) := by
  simp only [guile_ssh_private_key_from_file, guile_ssh_public_key_from_file, SCM_ASSERT,
    scm_is_string, scm_to_locale_string, if_true, hnul]
  constructor
  · intro h1 h2 h3
    simp [h1, h2, h3]
  · intro h1 h2 h3
    simp [h1, h2, h3]

end GuileSSH
